import Mathlib

/-!
Verification of the nx9-dns-server core against its specification.

The Rust sources contain two parallel copies of the engine: the library
modules (`src/utils.rs`, `src/dns.rs`, `src/db.rs`, `src/cache.rs`) and a
self-contained binary (`src/main.rs`) that re-implements the same
functions with small behavioural differences.  Both copies are embedded
here; definitions are prefixed `utils_` / `dns_` (library) and
`mainsrc_` / `main_` (binary).

Modelling conventions:
* a Rust `String` / `&str` / `Vec<u8>` / `&[u8]` is a `List Nat` of byte
  values (`Str`); string literals are built with `sb` (ASCII only, which
  covers every literal appearing in the sources);
* an out-of-bounds index or slice (which panics in Rust) is modelled by
  an outer `Option` layer: `none` means the Rust code would fault.
  Loops are written with an explicit fuel argument; exhausting the fuel
  also yields `none`, so `≠ none` states both in-bounds access and
  termination;
* integer casts (`as u8`, `as u16`, `as u32`) are explicit `% 2^w`
  truncations inside the byte-encoding helpers;
* external effects (SQLite, sockets, the wall clock, environment
  variables) are passed in as explicit values: the record list a lookup
  returned, the zone list, the forwarder's reply, the cache map and the
  current time in milliseconds.
-/

/-- Byte strings: the model of Rust `String` / `Vec<u8>`. -/
abbrev Str := List Nat

/-- ASCII string literal to byte list (every literal in the sources is ASCII). -/
def sb (s : String) : Str := s.data.map Char.toNat

/-- Big-endian 2-byte encoding of `n as u16` (`u16::to_be_bytes` after truncation). -/
def be16 (n : Nat) : Str := [n / 256 % 256, n % 256]

/-- Big-endian 4-byte encoding of `n as u32` (`u32::to_be_bytes` after truncation). -/
def be32 (n : Nat) : Str :=
  [n / 16777216 % 256, n / 65536 % 256, n / 256 % 256, n % 256]

/-- Rust slice `&q[a..b]`: `none` models the panic when `a > b` or `b > q.len()`. -/
def sliceQ (q : Str) (a b : Nat) : Option Str :=
  if a ≤ b ∧ b ≤ q.length then some ((q.drop a).take (b - a)) else none

/-- Rust slice `&q[a..]`: `none` models the panic when `a > q.len()`. -/
def dropFrom (q : Str) (a : Nat) : Option Str :=
  if a ≤ q.length then some (q.drop a) else none

/-- Decimal digit value of a byte, if it is one of `0`..`9`. -/
def digitVal (b : Nat) : Option Nat :=
  if 48 ≤ b ∧ b ≤ 57 then some (b - 48) else none

/-- Accumulate decimal digits; `none` on a non-digit byte. -/
def digitsVal : Str → Nat → Option Nat
  | [], acc => some acc
  | b :: rest, acc =>
    match digitVal b with
    | some d => digitsVal rest (acc * 10 + d)
    | none => none

/-- Rust `str::parse::<uN>()` with bound `lim` (exclusive): an optional
leading `+`, then at least one decimal digit, value below `lim`. -/
def parseUIntLt (lim : Nat) (s : Str) : Option Nat :=
  let body := match s with
    | 43 :: rest => rest
    | other => other
  match body with
  | [] => none
  | _ =>
    match digitsVal body 0 with
    | some v => if v < lim then some v else none
    | none => none

/-- Rust `parse::<u8>()`. -/
def parseU8 (s : Str) : Option Nat := parseUIntLt 256 s

/-- Rust `parse::<u16>()`. -/
def parseU16 (s : Str) : Option Nat := parseUIntLt 65536 s

/-- Rust `parse::<u32>()`. -/
def parseU32 (s : Str) : Option Nat := parseUIntLt 4294967296 s

/-- ASCII whitespace (Rust `split_whitespace` splits on Unicode whitespace;
the record values in this program only ever contain ASCII). -/
def isWsByte (b : Nat) : Bool := b == 32 || b == 9 || b == 10 || b == 13 || b == 12 || b == 11

/-- Rust `str::split_whitespace`: non-empty runs between whitespace. -/
def splitWs (s : Str) : List Str :=
  (s.splitOnP isWsByte).filter (fun t => !t.isEmpty)

/-- Rust `str::splitn(n, ' ')`: split on single spaces, at most `n` parts,
the last part keeping the remainder. -/
def splitNSpace : Nat → Str → List Str
  | 0, _ => []
  | 1, s => [s]
  | n + 2, s =>
    match s.splitOnP (fun b => b == 32) with
    | [] => [s]
    | first :: _ =>
      if first.length = s.length then [s]
      else first :: splitNSpace (n + 1) (s.drop (first.length + 1))

/-- Rust `str::trim_end_matches('.')`: remove every trailing dot. -/
def trimEndDots (s : Str) : Str :=
  (s.reverse.dropWhile (fun b => b == 46)).reverse

/-- Rust `str::trim_matches('"')`: remove every leading and trailing quote. -/
def trimQuotes (s : Str) : Str :=
  ((s.dropWhile (fun b => b == 34)).reverse.dropWhile (fun b => b == 34)).reverse

/-- Validity of a byte sequence as UTF-8 (`str::from_utf8(..).is_ok()`). -/
def isValidUtf8 : Str → Bool
  | [] => true
  | b :: rest =>
    if b < 128 then isValidUtf8 rest
    else if 194 ≤ b ∧ b ≤ 223 then
      match rest with
      | c1 :: rest' => 128 ≤ c1 ∧ c1 ≤ 191 ∧ isValidUtf8 rest'
      | [] => false
    else if b = 224 then
      match rest with
      | c1 :: c2 :: rest' => 160 ≤ c1 ∧ c1 ≤ 191 ∧ 128 ≤ c2 ∧ c2 ≤ 191 ∧ isValidUtf8 rest'
      | _ => false
    else if (225 ≤ b ∧ b ≤ 236) ∨ b = 238 ∨ b = 239 then
      match rest with
      | c1 :: c2 :: rest' => 128 ≤ c1 ∧ c1 ≤ 191 ∧ 128 ≤ c2 ∧ c2 ≤ 191 ∧ isValidUtf8 rest'
      | _ => false
    else if b = 237 then
      match rest with
      | c1 :: c2 :: rest' => 128 ≤ c1 ∧ c1 ≤ 159 ∧ 128 ≤ c2 ∧ c2 ≤ 191 ∧ isValidUtf8 rest'
      | _ => false
    else if b = 240 then
      match rest with
      | c1 :: c2 :: c3 :: rest' =>
        144 ≤ c1 ∧ c1 ≤ 191 ∧ 128 ≤ c2 ∧ c2 ≤ 191 ∧ 128 ≤ c3 ∧ c3 ≤ 191 ∧ isValidUtf8 rest'
      | _ => false
    else if 241 ≤ b ∧ b ≤ 243 then
      match rest with
      | c1 :: c2 :: c3 :: rest' =>
        128 ≤ c1 ∧ c1 ≤ 191 ∧ 128 ≤ c2 ∧ c2 ≤ 191 ∧ 128 ≤ c3 ∧ c3 ≤ 191 ∧ isValidUtf8 rest'
      | _ => false
    else if b = 244 then
      match rest with
      | c1 :: c2 :: c3 :: rest' =>
        128 ≤ c1 ∧ c1 ≤ 143 ∧ 128 ≤ c2 ∧ c2 ≤ 191 ∧ 128 ≤ c3 ∧ c3 ≤ 191 ∧ isValidUtf8 rest'
      | _ => false
    else false

/-- Value of a hex digit byte, if any (`0-9a-fA-F`). -/
def hexVal (b : Nat) : Option Nat :=
  if 48 ≤ b ∧ b ≤ 57 then some (b - 48)
  else if 97 ≤ b ∧ b ≤ 102 then some (b - 87)
  else if 65 ≤ b ∧ b ≤ 70 then some (b - 55)
  else none

/-- Rust `hex::decode`: pairs of hex digits; `none` on odd length or bad digit. -/
def hexDecode : Str → Option Str
  | [] => some []
  | [_] => none
  | h :: l :: rest =>
    match hexVal h, hexVal l, hexDecode rest with
    | some hv, some lv, some tail => some ((hv * 16 + lv) :: tail)
    | _, _, _ => none

/-- Value of a standard base64 alphabet byte, if any. -/
def b64Val (b : Nat) : Option Nat :=
  if 65 ≤ b ∧ b ≤ 90 then some (b - 65)
  else if 97 ≤ b ∧ b ≤ 122 then some (b - 71)
  else if 48 ≤ b ∧ b ≤ 57 then some (b + 4)
  else if b = 43 then some 62
  else if b = 47 then some 63
  else none

/-- Canonical base64 decoding (the `STANDARD` engine: 4-byte groups,
`=` padding only in the final group, zero trailing bits). -/
def base64Decode : Str → Option Str
  | [] => some []
  | c1 :: c2 :: c3 :: c4 :: rest =>
    match b64Val c1, b64Val c2 with
    | some v1, some v2 =>
      if c3 = 61 ∧ c4 = 61 ∧ rest = [] then
        if v2 % 16 = 0 then some [v1 * 4 + v2 / 16] else none
      else
        match b64Val c3 with
        | some v3 =>
          if c4 = 61 ∧ rest = [] then
            if v3 % 4 = 0 then some [v1 * 4 + v2 / 16, v2 % 16 * 16 + v3 / 4] else none
          else
            match b64Val c4, base64Decode rest with
            | some v4, some tail =>
              some ([v1 * 4 + v2 / 16, v2 % 16 * 16 + v3 / 4, v3 % 4 * 64 + v4] ++ tail)
            | _, _ => none
        | none => none
    | _, _ => none
  | _ => none

/-! ## Library parsers (`src/utils.rs`) -/

/-- QNAME loop of `utils.rs::extract_domain`: read length-prefixed labels,
validate UTF-8, join with `.`; returns the accumulated domain and the
position of the terminating zero byte.  Outer `none` = fault/fuel-out. -/
def edLoop (q : Str) : Nat → Nat → Str → Option (Option (Str × Nat))
  | 0, _, _ => none
  | fuel + 1, pos, domain =>
    if q.length ≤ pos then some none
    else
      match q.get? pos with
      | none => none
      | some len =>
        if len = 0 then some (some (domain, pos))
        else
          if q.length < pos + 1 + len then some none
          else
            let label := (q.drop (pos + 1)).take len
            if isValidUtf8 label then
              edLoop q fuel (pos + 1 + len) (if domain.isEmpty then label else domain ++ 46 :: label)
            else some none

/-- `utils.rs::extract_domain` (fully guarded: every index read is preceded
by a bounds check in the source). -/
def utils_extract_domain (q : Str) : Option (Option Str) :=
  if q.length < 12 then some none
  else
    match edLoop q (q.length + 1) 12 [] with
    | none => none
    | some none => some none
    | some (some (domain, posZ)) =>
      if q.length < posZ + 4 then some none else some (some domain)

/-- QNAME-skip loop of `utils.rs::extract_query_type`, then the guarded
read of the two QTYPE bytes. -/
def eqLoop (q : Str) : Nat → Nat → Option (Option Nat)
  | 0, _ => none
  | fuel + 1, pos =>
    if q.length ≤ pos then some none
    else
      match q.get? pos with
      | none => none
      | some len =>
        if len = 0 then
          if pos + 2 < q.length then
            match q.get? (pos + 1), q.get? (pos + 2) with
            | some hi, some lo => some (some (hi * 256 + lo))
            | _, _ => none
          else some none
        else eqLoop q fuel (pos + len + 1)

/-- `utils.rs::extract_query_type` (also the byte-identical copy in `main.rs`). -/
def utils_extract_query_type (q : Str) : Option (Option Nat) :=
  if q.length < 12 then some none else eqLoop q (q.length + 1) 12

/-- Label-emitting loop of `utils.rs::encode_dns_name`: labels longer than
63 bytes are skipped, the terminating zero closes the name. -/
def encodeParts : List Str → Str
  | [] => [0]
  | part :: rest =>
    if 63 < part.length then encodeParts rest
    else (part.length % 256) :: part ++ encodeParts rest

/-- `utils.rs::encode_dns_name` (also the byte-identical copy in `main.rs`). -/
def utils_encode_dns_name (name : Str) : Str :=
  encodeParts ((trimEndDots name).splitOn 46)

/-- QNAME-skip loop shared by the three `utils.rs` OPT scanners (and by
`main.rs::has_opt_record`); `none` models the early `return false`. -/
def skipQname (q : Str) : Nat → Nat → Option Nat
  | 0, _ => none
  | fuel + 1, pos =>
    if q.length ≤ pos then none
    else
      if q.getD pos 0 = 0 then some (pos + 1)
      else skipQname q fuel (pos + (q.getD pos 0) + 1)

/-- Answer/authority-skipping loop of the `utils.rs` OPT scanners. -/
def skipRRs (q : Str) (fuel : Nat) : Nat → Nat → Option Nat
  | 0, pos => some pos
  | count + 1, pos =>
    if q.length ≤ pos then none
    else
      match (if (q.getD pos 0) &&& 192 = 192 then some (pos + 2) else skipQname q fuel pos) with
      | none => none
      | some p =>
        if q.length < p + 10 then none
        else skipRRs q fuel count (p + 10 + (q.getD (p + 8) 0 * 256 + q.getD (p + 9) 0))

/-- Additional-section loop of `utils.rs::has_opt_record`. -/
def hasOptLoop (q : Str) : Nat → Nat → Bool
  | 0, _ => false
  | count + 1, pos =>
    if q.length ≤ pos then false
    else
      if q.getD pos 0 = 0 ∧ pos + 2 < q.length ∧ q.getD (pos + 1) 0 = 0 ∧ q.getD (pos + 2) 0 = 41 then
        true
      else
        if q.length ≤ pos + 10 then false
        else hasOptLoop q count (pos + 10 + (q.getD (pos + 8) 0 * 256 + q.getD (pos + 9) 0))

/-- `utils.rs::has_opt_record`. -/
def utils_has_opt_record (q : Str) : Bool :=
  if q.length < 12 then false
  else
    let arcount := q.getD 10 0 * 256 + q.getD 11 0
    if arcount = 0 then false
    else
      match skipQname q (q.length + 1) 12 with
      | none => false
      | some p =>
        let ancount := q.getD 6 0 * 256 + q.getD 7 0
        let nscount := q.getD 8 0 * 256 + q.getD 9 0
        match skipRRs q (q.length + 1) (ancount + nscount) (p + 4) with
        | none => false
        | some p2 => hasOptLoop q arcount p2

/-- Additional-section loop of `utils.rs::extract_edns_payload_size`. -/
def ednsLoop (q : Str) : Nat → Nat → Option Nat
  | 0, _ => none
  | count + 1, pos =>
    if q.length ≤ pos then none
    else
      if q.getD pos 0 = 0 ∧ pos + 5 < q.length ∧ q.getD (pos + 1) 0 = 0 ∧ q.getD (pos + 2) 0 = 41 then
        some (q.getD (pos + 3) 0 * 256 + q.getD (pos + 4) 0)
      else
        if q.length ≤ pos + 10 then none
        else ednsLoop q count (pos + 10 + (q.getD (pos + 8) 0 * 256 + q.getD (pos + 9) 0))

/-- `utils.rs::extract_edns_payload_size`. -/
def utils_extract_edns_payload_size (q : Str) : Option Nat :=
  if q.length < 12 then none
  else
    let arcount := q.getD 10 0 * 256 + q.getD 11 0
    if arcount = 0 then none
    else
      match skipQname q (q.length + 1) 12 with
      | none => none
      | some p =>
        let ancount := q.getD 6 0 * 256 + q.getD 7 0
        let nscount := q.getD 8 0 * 256 + q.getD 9 0
        match skipRRs q (q.length + 1) (ancount + nscount) (p + 4) with
        | none => none
        | some p2 => ednsLoop q arcount p2

/-- Additional-section loop of `utils.rs::extract_do_bit`.  Note the source
reads `query[pos + 6]` — the EDNS *version* octet, not the flags octet. -/
def doBitLoop (q : Str) : Nat → Nat → Bool
  | 0, _ => false
  | count + 1, pos =>
    if q.length ≤ pos then false
    else
      if q.getD pos 0 = 0 ∧ pos + 7 < q.length ∧ q.getD (pos + 1) 0 = 0 ∧ q.getD (pos + 2) 0 = 41 then
        (q.getD (pos + 6) 0) &&& 128 ≠ 0
      else
        if q.length ≤ pos + 10 then false
        else doBitLoop q count (pos + 10 + (q.getD (pos + 8) 0 * 256 + q.getD (pos + 9) 0))

/-- `utils.rs::extract_do_bit`. -/
def utils_extract_do_bit (q : Str) : Bool :=
  if q.length < 12 then false
  else
    let arcount := q.getD 10 0 * 256 + q.getD 11 0
    if arcount = 0 then false
    else
      match skipQname q (q.length + 1) 12 with
      | none => false
      | some p =>
        let ancount := q.getD 6 0 * 256 + q.getD 7 0
        let nscount := q.getD 8 0 * 256 + q.getD 9 0
        match skipRRs q (q.length + 1) (ancount + nscount) (p + 4) with
        | none => false
        | some p2 => doBitLoop q arcount p2

/-! ## Binary parsers (`src/main.rs`) -/

/-- QNAME loop of `main.rs::extract_domain`.  Unlike the `utils.rs` copy it
reads `query[pos]` with no bounds check, so the read itself can fault. -/
def mdLoop (q : Str) : Nat → Nat → Str → Option (Option (Str × Nat))
  | 0, _, _ => none
  | fuel + 1, pos, domain =>
    match q.get? pos with
    | none => none
    | some len =>
      if len = 0 then some (some (domain, pos))
      else
        if q.length < pos + 1 + len then some none
        else
          let label := (q.drop (pos + 1)).take len
          if isValidUtf8 label then
            mdLoop q fuel (pos + 1 + len) (if domain.isEmpty then label else domain ++ 46 :: label)
          else some none

/-- `main.rs::extract_domain`. -/
def mainsrc_extract_domain (q : Str) : Option (Option Str) :=
  if q.length < 12 then some none
  else
    match mdLoop q (q.length + 1) 12 [] with
    | none => none
    | some none => some none
    | some (some (domain, posZ)) =>
      if q.length < posZ + 4 then some none else some (some domain)

/-- Inner name-skipping `while` of the `main.rs` OPT scanners (exits on a
zero byte, end of packet, or right after a compression pointer). -/
def mwSkip (q : Str) : Nat → Nat → Nat
  | 0, pos => pos
  | fuel + 1, pos =>
    if pos < q.length ∧ q.getD pos 0 ≠ 0 then
      if (q.getD pos 0) &&& 192 = 192 then pos + 2
      else mwSkip q fuel (pos + (q.getD pos 0) + 1)
    else pos

/-- Additional-section loop of `main.rs::has_opt_record`. -/
def mHasOptLoop (q : Str) : Nat → Nat → Bool
  | 0, _ => false
  | count + 1, pos =>
    if q.length ≤ pos + 2 then false
    else
      if q.getD pos 0 = 0 ∧ pos + 5 < q.length ∧ q.getD (pos + 1) 0 = 0 ∧ q.getD (pos + 2) 0 = 41 then
        true
      else
        let p := mwSkip q (q.length + 1) (pos + 1)
        if p + 10 ≤ q.length then
          mHasOptLoop q count (p + 10 + (q.getD (p + 8) 0 * 256 + q.getD (p + 9) 0))
        else false

/-- `main.rs::has_opt_record` (no answer/authority skip, unlike `utils.rs`). -/
def mainsrc_has_opt_record (q : Str) : Bool :=
  if q.length < 12 then false
  else
    let arcount := q.getD 10 0 * 256 + q.getD 11 0
    if arcount = 0 then false
    else
      match skipQname q (q.length + 1) 12 with
      | none => false
      | some p => mHasOptLoop q arcount (p + 4)

/-- Additional-section loop of `main.rs::extract_edns_payload_size`. -/
def mEdnsLoop (q : Str) : Nat → Nat → Option Nat
  | 0, _ => none
  | count + 1, pos =>
    if q.length ≤ pos + 2 then none
    else
      if q.getD pos 0 = 0 ∧ pos + 5 < q.length ∧ q.getD (pos + 1) 0 = 0 ∧ q.getD (pos + 2) 0 = 41 then
        if pos + 4 < q.length then some (q.getD (pos + 3) 0 * 256 + q.getD (pos + 4) 0)
        else some 4096
      else
        let p := mwSkip q (q.length + 1) (pos + 1)
        if p + 10 ≤ q.length then
          mEdnsLoop q count (p + 10 + (q.getD (p + 8) 0 * 256 + q.getD (p + 9) 0))
        else none

/-- `main.rs::extract_edns_payload_size`. -/
def mainsrc_extract_edns_payload_size (q : Str) : Option Nat :=
  if q.length < 12 then none
  else
    let arcount := q.getD 10 0 * 256 + q.getD 11 0
    if arcount = 0 then none
    else
      match skipQname q (q.length + 1) 12 with
      | none => none
      | some p => mEdnsLoop q arcount (p + 4)

/-- Byte-wise question skip of `main.rs::extract_do_bit`. -/
def mByteSkip (q : Str) : Nat → Nat → Nat
  | 0, pos => pos
  | fuel + 1, pos =>
    if pos < q.length ∧ q.getD pos 0 ≠ 0 then mByteSkip q fuel (pos + 1) else pos

/-- Record loop of `main.rs::extract_do_bit` (reads `query[pos + 9]`,
which is an RDLENGTH octet of a standard OPT record). -/
def mDoLoop (q : Str) : Nat → Nat → Bool
  | 0, _ => false
  | fuel + 1, pos =>
    if pos + 11 ≤ q.length then
      if q.getD pos 0 = 0 ∧ q.getD (pos + 1) 0 = 0 ∧ q.getD (pos + 2) 0 = 41 then
        pos + 9 < q.length ∧ (q.getD (pos + 9) 0) &&& 128 ≠ 0
      else
        if q.length ≤ pos + 10 then false
        else mDoLoop q fuel (pos + 10 + (q.getD (pos + 8) 0 * 256 + q.getD (pos + 9) 0))
    else false

/-- `main.rs::extract_do_bit`. -/
def mainsrc_extract_do_bit (q : Str) : Bool :=
  mDoLoop q (q.length + 1) (mByteSkip q (q.length + 1) 12 + 5)

/-! ## Data model -/

/-- Error taxonomy of `errors.rs` / `main.rs::DnsError`.  The message
payloads are logging text only and are elided. -/
inductive DnsError where
  | ioErr
  | dbErr
  | protocol
  | config
  | parse
  | base64
  | shutdown
deriving DecidableEq

/-- `db.rs::ZoneInfo` (identically redefined in `main.rs`). -/
structure ZoneInfo where
  name : Str
  ns_records : List Str
  soa_record : Option Str
deriving DecidableEq

/-- `config.rs::ServerConfig` restricted to the fields the resolver and
builders consume; the I/O-only fields (bind address, database path,
packet size, IPv6 flag, seed domain/IP) are not part of the embedded
behaviour.  Forwarder endpoints are opaque tokens. -/
structure ServerConfig where
  authoritative : Bool
  ns_records : List Str
  cache_ttl : Nat
  forwarders : List Nat
  ds_records : List Str
  dnskey_records : List Str
deriving DecidableEq

/-- `cache.rs::CacheEntry`; `inserted` is a wall-clock instant in
milliseconds (`SystemTime` has sub-second resolution). -/
structure CacheEntry where
  ip : Str
  inserted : Nat
  ttl : Nat
deriving DecidableEq

/-- The validity test `entry.inserted.elapsed().map(|d| d.as_secs() <= entry.ttl).unwrap_or(true)`:
a clock that went backwards reads as valid, otherwise whole elapsed
seconds (truncated from milliseconds) are compared against the TTL. -/
def entry_valid (now : Nat) (e : CacheEntry) : Bool :=
  if now < e.inserted then true else decide ((now - e.inserted) / 1000 ≤ e.ttl)

/-- `cache.rs::DnsCache::get` over the map contents. -/
def cache_get (m : List (Str × CacheEntry)) (domain : Str) (now : Nat) : Option (Str × Nat) :=
  match m.find? (fun p => p.1 == domain) with
  | some p => if entry_valid now p.2 then some (p.2.ip, p.2.ttl) else none
  | none => none

/-- `cache.rs::DnsCache::set`: insert-or-overwrite (`HashMap::insert`). -/
def cache_set (m : List (Str × CacheEntry)) (domain ip : Str) (ttl now : Nat) :
    List (Str × CacheEntry) :=
  (domain, CacheEntry.mk ip now ttl) :: m.filter (fun p => !(p.1 == domain))

/-- `cache.rs::DnsCache::cleanup`: retain the valid entries. -/
def cache_cleanup (m : List (Str × CacheEntry)) (now : Nat) : List (Str × CacheEntry) :=
  m.filter (fun p => entry_valid now p.2)

/-- Outcome of one SQLite interaction in `db.rs::lookup_records`: opening
the connection, preparing the statement or running the query can fail,
otherwise each row is itself fallible. -/
inductive DbOutcome where
  | connErr
  | prepareErr
  | queryErr
  | rows (rs : List (Except Unit (Str × Nat × Str)))

/-- `db.rs::lookup_records`: every failure collapses to the empty list,
successful rows are collected, failed rows are dropped (`filter_map(Result::ok)`). -/
def db_lookup_records : DbOutcome → List (Str × Nat × Str)
  | DbOutcome.connErr => []
  | DbOutcome.prepareErr => []
  | DbOutcome.queryErr => []
  | DbOutcome.rows rs => rs.filterMap (fun r => match r with | Except.ok rec => some rec | Except.error _ => none)

/-- Whether the backend interaction failed before producing rows. -/
def dbFailed : DbOutcome → Bool
  | DbOutcome.rows _ => false
  | _ => true

/-- Exact-suffix pass of `db.rs::find_closest_parent_zone` (identical copy
in `main.rs`): for each `i`, the candidate `parts[i..].join(".")`. -/
def fcpLoop : List Str → List ZoneInfo → Option ZoneInfo
  | [], _ => none
  | p :: rest, zones =>
    match zones.find? (fun z => z.name == [46].intercalate (p :: rest)) with
    | some z => some z
    | none => fcpLoop rest zones

/-- `db.rs::find_closest_parent_zone`. -/
def find_closest_parent_zone (domain : Str) (zones : List ZoneInfo) : Option ZoneInfo :=
  match fcpLoop (domain.splitOn 46) zones with
  | some z => some z
  | none => zones.find? (fun z => (46 :: z.name).isSuffixOf domain)

/-! ## Library response builders (`src/dns.rs`)

Every builder returns `Option (Except DnsError Str)`: the outer layer is
the fault model (an out-of-range slice panics in Rust), the inner layer
is the source's `Result`.  `build_nxdomain_response` returns
`Option (Option Str)` since the source returns `Option<Vec<u8>>`. -/

/-- The OPT record each `dns.rs` builder appends when the request carried
one (the identical block repeated in every builder): mirrored payload
size, extended-RCODE 0, version 0, DO flag as scanned, RDLENGTH 0. -/
def dns_opt_rr (q : Str) : Str :=
  [0, 0, 41] ++ be16 ((utils_extract_edns_payload_size q).getD 4096) ++ [0, 0]
    ++ (if utils_extract_do_bit q then [128, 0] else [0, 0]) ++ [0, 0]

/-- The question-section copy every `dns.rs` builder performs: find the
QNAME terminator in `&query[12..]` (`Err(Protocol)` when absent), then
slice through QTYPE/QCLASS — a slice that can fault on truncated input. -/
def dns_question (q : Str) : Option (Except DnsError Str) :=
  match dropFrom q 12 with
  | none => none
  | some rest =>
    match rest.findIdx? (fun b => b == 0) with
    | none => some (Except.error DnsError.protocol)
    | some i =>
      match sliceQ q 12 (i + 13 + 4) with
      | none => none
      | some qsec => some (Except.ok qsec)

/-- `dns.rs::build_dns_response` (A answers). -/
def dns_build_dns_response (q ip : Str) (ttl : Nat) (cfg : ServerConfig) :
    Option (Except DnsError Str) :=
  match sliceQ q 0 2 with
  | none => none
  | some tid =>
  match q.get? 2 with
  | none => none
  | some b2 =>
  match sliceQ q 4 6 with
  | none => none
  | some qd =>
  match dns_question q with
  | none => none
  | some (Except.error e) => some (Except.error e)
  | some (Except.ok qsec) =>
    let flags1 := 128 ||| (b2 &&& 1)
    let hdr := tid ++ [if cfg.authoritative then flags1 ||| 4 else flags1, 128]
      ++ qd ++ [0, 1] ++ [0, if cfg.authoritative then 2 else 0] ++ [0, 0]
    let octets := (ip.splitOn 46).filterMap parseU8
    if octets.length ≠ 4 then some (Except.error DnsError.protocol)
    else
      let base := hdr ++ qsec ++ [192, 12, 0, 1, 0, 1] ++ be32 ttl ++ [0, 4] ++ octets
      if utils_has_opt_record q then some (Except.ok (base ++ dns_opt_rr q))
      else some (Except.ok base)

/-- `dns.rs::build_soa_response`. -/
def dns_build_soa_response (q soa_value : Str) (ttl : Nat) (domain : Str) (cfg : ServerConfig) :
    Option (Except DnsError Str) :=
  match sliceQ q 0 2 with
  | none => none
  | some tid =>
  match sliceQ q 4 6 with
  | none => none
  | some qd =>
  let has_edns := utils_has_opt_record q
  match dns_question q with
  | none => none
  | some (Except.error e) => some (Except.error e)
  | some (Except.ok qsec) =>
    let hdr := tid ++ [132, 0] ++ qd ++ [0, 1] ++ [0, 0] ++ [0, if has_edns then 1 else 0]
    match splitWs soa_value with
    | m :: r :: f2 :: f3 :: f4 :: f5 :: f6 :: _ =>
      match parseU32 f2, parseU32 f3, parseU32 f4, parseU32 f5, parseU32 f6 with
      | some serial, some refresh, some retry, some expire, some minimum =>
        let mw := utils_encode_dns_name m
        let rw := utils_encode_dns_name r
        some (Except.ok (hdr ++ qsec ++ [192, 12, 0, 6, 0, 1] ++ be32 ttl
          ++ be16 (mw.length + rw.length + 20) ++ mw ++ rw
          ++ be32 serial ++ be32 refresh ++ be32 retry ++ be32 expire ++ be32 minimum
          ++ (if has_edns then dns_opt_rr q else [])))
      | _, _, _, _, _ => some (Except.error DnsError.config)
    | _ => some (Except.error DnsError.config)

/-- `dns.rs::build_ns_response`: every stored NS record becomes an answer RR. -/
def dns_build_ns_response (q : Str) (records : List (Str × Nat × Str)) (ttl : Nat)
    (domain : Str) (cfg : ServerConfig) : Option (Except DnsError Str) :=
  match sliceQ q 0 2 with
  | none => none
  | some tid =>
  match sliceQ q 4 6 with
  | none => none
  | some qd =>
  let ns_records := records.filter (fun r => r.2.2 == sb "NS")
  let has_edns := utils_has_opt_record q
  match dns_question q with
  | none => none
  | some (Except.error e) => some (Except.error e)
  | some (Except.ok qsec) =>
    let hdr := tid ++ [132, 0] ++ qd ++ be16 ns_records.length ++ [0, 0]
      ++ [0, if has_edns then 1 else 0]
    let rrs := (ns_records.map (fun r =>
      [192, 12, 0, 2, 0, 1] ++ be32 r.2.1
        ++ be16 (utils_encode_dns_name r.1).length ++ utils_encode_dns_name r.1)).join
    some (Except.ok (hdr ++ qsec ++ rrs ++ (if has_edns then dns_opt_rr q else [])))

/-- `dns.rs::build_generic_record_response` (MX, TXT, CNAME, PTR). -/
def dns_build_generic_record_response (q value : Str) (ttl : Nat) (domain : Str)
    (query_type : Nat) (cfg : ServerConfig) : Option (Except DnsError Str) :=
  match sliceQ q 0 2 with
  | none => none
  | some tid =>
  match sliceQ q 4 6 with
  | none => none
  | some qd =>
  let has_edns := utils_has_opt_record q
  match dns_question q with
  | none => none
  | some (Except.error e) => some (Except.error e)
  | some (Except.ok qsec) =>
    let hdr := tid ++ [132, 0] ++ qd ++ [0, 1] ++ [0, 0] ++ [0, if has_edns then 1 else 0]
    let front := hdr ++ qsec ++ [192, 12] ++ be16 query_type ++ [0, 1] ++ be32 ttl
    if query_type = 15 then
      match splitWs value with
      | p0 :: p1 :: _ =>
        match parseU16 p0 with
        | none => some (Except.error DnsError.config)
        | some preference =>
          let ew := utils_encode_dns_name p1
          some (Except.ok (front ++ be16 (2 + ew.length) ++ be16 preference ++ ew
            ++ (if has_edns then dns_opt_rr q else [])))
      | _ => some (Except.error DnsError.config)
    else if query_type = 16 then
      let txt := trimQuotes value
      some (Except.ok (front ++ be16 (txt.length + 1) ++ [txt.length % 256] ++ txt
        ++ (if has_edns then dns_opt_rr q else [])))
    else if query_type = 5 ∨ query_type = 12 then
      let tw := utils_encode_dns_name value
      some (Except.ok (front ++ be16 tw.length ++ tw
        ++ (if has_edns then dns_opt_rr q else [])))
    else some (Except.error DnsError.protocol)

/-- `dns.rs::build_ds_response`. -/
def dns_build_ds_response (q ds_record : Str) (ttl : Nat) (cfg : ServerConfig) :
    Option (Except DnsError Str) :=
  match sliceQ q 0 2 with
  | none => none
  | some tid =>
  match sliceQ q 4 6 with
  | none => none
  | some qd =>
  let has_edns := utils_has_opt_record q
  match dns_question q with
  | none => none
  | some (Except.error e) => some (Except.error e)
  | some (Except.ok qsec) =>
    match splitWs ds_record with
    | _ :: _ :: _ :: p3 :: p4 :: p5 :: p6 :: _ =>
      match parseU16 p3, parseU8 p4, parseU8 p5, hexDecode p6 with
      | some key_tag, some algorithm, some digest_type, some digest =>
        some (Except.ok (tid ++ [132, 0] ++ qd ++ [0, 1] ++ [0, 0]
          ++ [0, if has_edns then 1 else 0] ++ qsec
          ++ [192, 12, 0, 43, 0, 1] ++ be32 ttl ++ be16 (4 + digest.length)
          ++ be16 key_tag ++ [algorithm, digest_type] ++ digest
          ++ (if has_edns then dns_opt_rr q else [])))
      | _, _, _, _ => some (Except.error DnsError.config)
    | _ => some (Except.error DnsError.config)

/-- `dns.rs::build_dnskey_response`. -/
def dns_build_dnskey_response (q dnskey_record : Str) (ttl : Nat) (cfg : ServerConfig) :
    Option (Except DnsError Str) :=
  match sliceQ q 0 2 with
  | none => none
  | some tid =>
  match sliceQ q 4 6 with
  | none => none
  | some qd =>
  let has_edns := utils_has_opt_record q
  match dns_question q with
  | none => none
  | some (Except.error e) => some (Except.error e)
  | some (Except.ok qsec) =>
    match splitWs dnskey_record with
    | _ :: _ :: _ :: p3 :: p4 :: p5 :: rest6 =>
      match rest6 with
      | [] => some (Except.error DnsError.config)
      | _ =>
        match parseU16 p3, parseU8 p4, parseU8 p5 with
        | some flags, some protocol, some algorithm =>
          match base64Decode rest6.join with
          | none => some (Except.error DnsError.base64)
          | some key_data =>
            some (Except.ok (tid ++ [132, 0] ++ qd ++ [0, 1] ++ [0, 0]
              ++ [0, if has_edns then 1 else 0] ++ qsec
              ++ [192, 12, 0, 48, 0, 1] ++ be32 ttl ++ be16 (4 + key_data.length)
              ++ be16 flags ++ [protocol, algorithm] ++ key_data
              ++ (if has_edns then dns_opt_rr q else [])))
        | _, _, _ => some (Except.error DnsError.config)
    | _ => some (Except.error DnsError.config)

/-- `dns.rs::build_nxdomain_response`.  `cfgE` is the result of the
internal `ServerConfig::from_env()` call and `zones` the result of the
internal `get_authoritative_zones` call.  Note in the source: NSCOUNT is
`1` whenever a covering zone exists, the SOA RR header is emitted even
when no SOA RDATA follows, and the emitted NS RRs are not counted. -/
def dns_build_nxdomain_response (q : Str) (authoritative : Bool)
    (cfgE : Option ServerConfig) (zones : List ZoneInfo) : Option (Option Str) :=
  match sliceQ q 0 2 with
  | none => none
  | some tid =>
  match utils_extract_domain q with
  | none => none
  | some none => some none
  | some (some domain) =>
  match cfgE with
  | none => some none
  | some _cfg =>
  let zone := find_closest_parent_zone domain zones
  match q.get? 2 with
  | none => none
  | some b2 =>
  match sliceQ q 4 6 with
  | none => none
  | some qd =>
  let flags1 := 128 ||| (b2 &&& 1)
  let has_edns := utils_has_opt_record q
  match dropFrom q 12 with
  | none => none
  | some rest =>
    match rest.findIdx? (fun b => b == 0) with
    | none => some none
    | some i =>
      match sliceQ q 12 (i + 13 + 4) with
      | none => none
      | some qsec =>
        let authority := match zone with
          | none => []
          | some z =>
            let zn := utils_encode_dns_name z.name
            let soaRdata := match z.soa_record with
              | some soa =>
                match splitWs soa with
                | m :: r :: _ :: _ :: _ :: _ :: _ :: _ =>
                  let mw := utils_encode_dns_name m
                  let rw := utils_encode_dns_name r
                  be16 (mw.length + rw.length + 20) ++ mw ++ rw
                    ++ be32 1 ++ be32 10800 ++ be32 3600 ++ be32 604800 ++ be32 86400
                | _ => []
              | none => []
            zn ++ [0, 6, 0, 1] ++ be32 600 ++ soaRdata
              ++ (z.ns_records.map (fun ns =>
                zn ++ [0, 2, 0, 1] ++ be32 600
                  ++ be16 (utils_encode_dns_name ns).length ++ utils_encode_dns_name ns)).join
        some (some (tid ++ [if authoritative then flags1 ||| 4 else flags1, 131]
          ++ qd ++ [0, 0] ++ [0, if zone.isSome then 1 else 0]
          ++ [0, if has_edns then 1 else 0] ++ qsec ++ authority
          ++ (if has_edns then dns_opt_rr q else [])))

/-! ## Binary response builders (`src/main.rs`) -/

/-- The OPT record appended by `main.rs::build_nxdomain_response` and
`build_not_implemented_response`, using the binary's own scanners. -/
def main_opt_rr (q : Str) : Str :=
  [0, 0, 41] ++ be16 ((mainsrc_extract_edns_payload_size q).getD 4096) ++ [0, 0]
    ++ (if mainsrc_extract_do_bit q then [128, 0] else [0, 0]) ++ [0, 0]

/-- `main.rs::generate_dns_response` forwarding rewrite: clear bit 0x04 of
byte 2 when the reply has at least 3 bytes, else leave it unchanged. -/
def clear_aa (r : Str) : Str :=
  if 3 ≤ r.length then r.set 2 (Nat.land (r.getD 2 0) 251) else r

/-- `main.rs::build_dns_response` (A answers; appends the configured NS
records as authority RRs when authoritative, and never appends OPT). -/
def main_build_dns_response (q ip : Str) (ttl : Nat) (cfg : ServerConfig) :
    Option (Except DnsError Str) :=
  match sliceQ q 0 2 with
  | none => none
  | some tid =>
  match q.get? 2 with
  | none => none
  | some b2 =>
  match sliceQ q 4 6 with
  | none => none
  | some qd =>
  match dns_question q with
  | none => none
  | some (Except.error e) => some (Except.error e)
  | some (Except.ok qsec) =>
    let flags1 := 128 ||| (b2 &&& 1)
    let hdr := tid ++ [if cfg.authoritative then flags1 ||| 4 else flags1, 128]
      ++ qd ++ [0, 1] ++ [0, if cfg.authoritative then 2 else 0] ++ [0, 0]
    let ip_parts := (ip.splitOn 46).map (fun s => (parseU8 s).getD 0)
    if ip_parts.length = 4 then
      some (Except.ok (hdr ++ qsec ++ [192, 12, 0, 1, 0, 1] ++ be32 ttl ++ [0, 4] ++ ip_parts
        ++ (if cfg.authoritative then
              (cfg.ns_records.map (fun ns =>
                [192, 12, 0, 2, 0, 1] ++ be32 ttl
                  ++ be16 (utils_encode_dns_name ns).length ++ utils_encode_dns_name ns)).flatten
            else [])))
    else some (Except.error DnsError.protocol)

/-- `main.rs::build_generic_record_response` (PTR, MX, TXT, CNAME).
MX preference falls back to 10 when unparsable (`unwrap_or(10)`). -/
def main_build_generic_record_response (q value : Str) (ttl : Nat) (domain : Str)
    (query_type : Nat) (cfg : ServerConfig) : Option (Except DnsError Str) :=
  match sliceQ q 0 2 with
  | none => none
  | some tid =>
  match q.get? 2 with
  | none => none
  | some b2 =>
  match sliceQ q 4 6 with
  | none => none
  | some qd =>
  match dns_question q with
  | none => none
  | some (Except.error e) => some (Except.error e)
  | some (Except.ok qsec) =>
    let flags1 := 128 ||| (b2 &&& 1)
    let hdr := tid ++ [if cfg.authoritative then flags1 ||| 4 else flags1, 128]
      ++ qd ++ [0, 1] ++ [0, if cfg.authoritative then 2 else 0] ++ [0, 0]
    let front := hdr ++ qsec ++ [192, 12] ++ be16 query_type ++ [0, 1] ++ be32 ttl
    let tailNs : Str :=
      if cfg.authoritative then
        (cfg.ns_records.map (fun ns =>
          [192, 12, 0, 2, 0, 1] ++ be32 ttl
            ++ be16 (utils_encode_dns_name ns).length ++ utils_encode_dns_name ns)).flatten
      else []
    if query_type = 12 then
      let pw := utils_encode_dns_name value
      some (Except.ok (front ++ be16 pw.length ++ pw ++ tailNs))
    else if query_type = 15 then
      match splitWs value with
      | p0 :: p1 :: _ =>
        let preference := (parseU16 p0).getD 10
        let ew := utils_encode_dns_name p1
        some (Except.ok (front ++ be16 (2 + ew.length) ++ be16 preference ++ ew ++ tailNs))
      | _ => some (Except.error DnsError.protocol)
    else if query_type = 16 then
      match (if value.head? = some 34 ∧ value.getLast? = some 34
             then sliceQ value 1 (value.length - 1) else some value) with
      | none => none
      | some txt =>
        some (Except.ok (front ++ be16 (txt.length + 1) ++ [txt.length % 256] ++ txt ++ tailNs))
    else if query_type = 5 then
      let cw := utils_encode_dns_name value
      some (Except.ok (front ++ be16 cw.length ++ cw ++ tailNs))
    else some (Except.error DnsError.protocol)

/-- `main.rs::build_soa_response` (per-field integer defaults, a minimal
synthesised SOA when the stored text is malformed, NS authority RRs). -/
def main_build_soa_response (q soa_value : Str) (ttl : Nat) (domain : Str)
    (cfg : ServerConfig) : Option (Except DnsError Str) :=
  match sliceQ q 0 2 with
  | none => none
  | some tid =>
  match q.get? 2 with
  | none => none
  | some b2 =>
  match sliceQ q 4 6 with
  | none => none
  | some qd =>
  match dns_question q with
  | none => none
  | some (Except.error e) => some (Except.error e)
  | some (Except.ok qsec) =>
    let flags1 := 128 ||| (b2 &&& 1)
    let hdr := tid ++ [if cfg.authoritative then flags1 ||| 4 else flags1, 128]
      ++ qd ++ [0, 1] ++ [0, if cfg.authoritative then 2 else 0] ++ [0, 0]
    let front := hdr ++ qsec ++ [192, 12, 0, 6, 0, 1] ++ be32 ttl
    let rdata := match splitWs soa_value with
      | m :: r :: f2 :: f3 :: f4 :: f5 :: f6 :: _ =>
        let mw := utils_encode_dns_name m
        let rw := utils_encode_dns_name r
        be16 (mw.length + rw.length + 20) ++ mw ++ rw
          ++ be32 ((parseU32 f2).getD 1) ++ be32 ((parseU32 f3).getD 10800)
          ++ be32 ((parseU32 f4).getD 3600) ++ be32 ((parseU32 f5).getD 604800)
          ++ be32 ((parseU32 f6).getD 86400)
      | _ =>
        let mw := utils_encode_dns_name (cfg.ns_records.head?.getD (sb "ns1.example.com."))
        let rw := utils_encode_dns_name (sb "hostmaster." ++ domain)
        be16 (mw.length + rw.length + 20) ++ mw ++ rw
          ++ be32 1 ++ be32 10800 ++ be32 3600 ++ be32 604800 ++ be32 86400
    some (Except.ok (front ++ rdata
      ++ (if cfg.authoritative then
            (cfg.ns_records.map (fun ns =>
              [192, 12, 0, 2, 0, 1] ++ be32 ttl
                ++ be16 (utils_encode_dns_name ns).length ++ utils_encode_dns_name ns)).flatten
          else [])))

/-- `main.rs::build_ns_response`: database NS records, or the configured
ones (with the configured cache TTL) when the database has none and the
server is authoritative. -/
def main_build_ns_response (q : Str) (records : List (Str × Nat × Str)) (ttl : Nat)
    (domain : Str) (cfg : ServerConfig) : Option (Except DnsError Str) :=
  match sliceQ q 0 2 with
  | none => none
  | some tid =>
  match q.get? 2 with
  | none => none
  | some b2 =>
  match sliceQ q 4 6 with
  | none => none
  | some qd =>
  let db_ns := records.filter (fun r => r.2.2 == sb "NS")
  let ns_records := if db_ns.isEmpty ∧ cfg.authoritative then
      cfg.ns_records.map (fun ns => (ns, cfg.cache_ttl, sb "NS"))
    else db_ns
  match dns_question q with
  | none => none
  | some (Except.error e) => some (Except.error e)
  | some (Except.ok qsec) =>
    let flags1 := 128 ||| (b2 &&& 1)
    let hdr := tid ++ [if cfg.authoritative then flags1 ||| 4 else flags1, 128]
      ++ qd ++ be16 ns_records.length ++ [0, 0] ++ [0, 0]
    some (Except.ok (hdr ++ qsec ++ (ns_records.map (fun r =>
      [192, 12, 0, 2, 0, 1] ++ be32 r.2.1
        ++ be16 (utils_encode_dns_name r.1).length ++ utils_encode_dns_name r.1)).flatten))

/-- `main.rs::build_ds_response`: the record is parsed (with `splitn(7, ' ')`)
before any byte of the query is touched; the DS RR is emitted in the
authority section with fixed header counts. -/
def main_build_ds_response (q ds_record : Str) (ttl : Nat) (cfg : ServerConfig) :
    Option (Except DnsError Str) :=
  match splitNSpace 7 ds_record with
  | [_, _, _, p3, p4, p5, p6] =>
    match parseU16 p3, parseU8 p4, parseU8 p5 with
    | some key_tag, some algorithm, some digest_type =>
      match hexDecode p6 with
      | none => some (Except.error DnsError.config)
      | some digest =>
        match sliceQ q 0 2 with
        | none => none
        | some tid =>
        match q.get? 2 with
        | none => none
        | some b2 =>
        match dns_question q with
        | none => none
        | some (Except.error e) => some (Except.error e)
        | some (Except.ok qsec) =>
          some (Except.ok (tid
            ++ [128 ||| (if cfg.authoritative then 4 else 0) ||| (b2 &&& 1), 128]
            ++ [0, 1] ++ [0, 0] ++ [0, 1] ++ [0, 0] ++ qsec
            ++ [192, 12, 0, 43, 0, 1] ++ be32 ttl ++ be16 (4 + digest.length)
            ++ be16 key_tag ++ [algorithm, digest_type] ++ digest))
    | _, _, _ => some (Except.error DnsError.parse)
  | _ => some (Except.error DnsError.config)

/-- `main.rs::build_dnskey_response`. -/
def main_build_dnskey_response (q dnskey_record : Str) (ttl : Nat) (cfg : ServerConfig) :
    Option (Except DnsError Str) :=
  match splitNSpace 7 dnskey_record with
  | [_, _, _, p3, p4, p5, p6] =>
    match parseU16 p3, parseU8 p4, parseU8 p5 with
    | some flags, some protocol, some algorithm =>
      match base64Decode p6 with
      | none => some (Except.error DnsError.base64)
      | some public_key =>
        match sliceQ q 0 2 with
        | none => none
        | some tid =>
        match q.get? 2 with
        | none => none
        | some b2 =>
        match dns_question q with
        | none => none
        | some (Except.error e) => some (Except.error e)
        | some (Except.ok qsec) =>
          some (Except.ok (tid
            ++ [128 ||| (if cfg.authoritative then 4 else 0) ||| (b2 &&& 1), 128]
            ++ [0, 1] ++ [0, 1] ++ [0, 0] ++ [0, 0] ++ qsec
            ++ [192, 12, 0, 48, 0, 1] ++ be32 ttl ++ be16 (4 + public_key.length)
            ++ be16 flags ++ [protocol, algorithm] ++ public_key))
    | _, _, _ => some (Except.error DnsError.parse)
  | _ => some (Except.error DnsError.config)

/-- `main.rs::build_nxdomain_response`: NSCOUNT is the real count of SOA
and NS authority RRs, AA only when a covering zone exists and the server
is authoritative, question copy bounds-checked. -/
def main_build_nxdomain_response (q : Str) (authoritative : Bool)
    (cfgE : Option ServerConfig) (zones : List ZoneInfo) : Option (Option Str) :=
  match sliceQ q 0 2 with
  | none => none
  | some tid =>
  match mainsrc_extract_domain q with
  | none => none
  | some none => some none
  | some (some domain) =>
  match cfgE with
  | none => some none
  | some _cfg =>
  let parent := find_closest_parent_zone domain zones
  let is_auth := parent.isSome ∧ authoritative
  match q.get? 2 with
  | none => none
  | some b2 =>
  let flags1 := 128 ||| (b2 &&& 1)
  let ns_count := if is_auth then (parent.map (fun z => z.ns_records.length)).getD 0 else 0
  let soa_count := if is_auth ∧ (parent.bind ZoneInfo.soa_record).isSome then 1 else 0
  match sliceQ q 4 6 with
  | none => none
  | some qd =>
  let has_edns := mainsrc_has_opt_record q
  match dropFrom q 12 with
  | none => none
  | some rest =>
    match rest.findIdx? (fun b => b == 0) with
    | none => some none
    | some e =>
      if 12 + e + 5 ≤ q.length then
        let qsec := (q.drop 12).take (e + 5)
        let authority : Str :=
          if is_auth then
            match parent with
            | none => []
            | some z =>
              let zn := utils_encode_dns_name z.name
              let soaPart := match z.soa_record with
                | some soa =>
                  zn ++ [0, 6, 0, 1] ++ be32 600
                    ++ (match splitWs soa with
                        | m :: r :: f2 :: f3 :: f4 :: f5 :: f6 :: _ =>
                          let mw := utils_encode_dns_name m
                          let rw := utils_encode_dns_name r
                          be16 (mw.length + rw.length + 20) ++ mw ++ rw
                            ++ be32 ((parseU32 f2).getD 1) ++ be32 ((parseU32 f3).getD 10800)
                            ++ be32 ((parseU32 f4).getD 3600) ++ be32 ((parseU32 f5).getD 604800)
                            ++ be32 ((parseU32 f6).getD 86400)
                        | _ =>
                          let mw := utils_encode_dns_name (z.ns_records.head?.getD (sb "ns1.example.com."))
                          let rw := utils_encode_dns_name (sb "hostmaster." ++ z.name)
                          be16 (mw.length + rw.length + 20) ++ mw ++ rw
                            ++ be32 1 ++ be32 10800 ++ be32 3600 ++ be32 604800 ++ be32 86400)
                | none => []
              soaPart ++ (z.ns_records.map (fun ns =>
                zn ++ [0, 2, 0, 1] ++ be32 600
                  ++ be16 (utils_encode_dns_name ns).length ++ utils_encode_dns_name ns)).flatten
          else []
        some (some (tid ++ [if is_auth then flags1 ||| 4 else flags1, 131]
          ++ qd ++ [0, 0] ++ be16 (ns_count + soa_count)
          ++ be16 (if has_edns then 1 else 0) ++ qsec ++ authority
          ++ (if has_edns then main_opt_rr q else [])))
      else some none

/-! ## The two resolver state machines -/

/-- External effects consumed by one `generate_dns_response` run, passed
by value: the record list returned by `lookup_records(db_path, domain)`,
the zone list returned by `get_authoritative_zones(db_path)`, the config
re-read from the environment inside `build_nxdomain_response`, the
replies of the UDP and TCP forwarder passes, and the cache with the
current time.  Cache insertions mutate state only and do not alter the
returned bytes. -/
structure ResolveEnv where
  records : List (Str × Nat × Str)
  zones : List ZoneInfo
  cfgEnv : Option ServerConfig
  fwdUdp : Option Str
  fwdTcp : Option Str
  cache : List (Str × CacheEntry)
  now : Nat

/-- `Option<Vec<u8>>::ok_or(DnsError::Protocol(..))` under the fault layer. -/
def okOrProtocol (x : Option (Option Str)) : Option (Except DnsError Str) :=
  match x with
  | none => none
  | some none => some (Except.error DnsError.protocol)
  | some (some r) => some (Except.ok r)

/-- The QTYPE-to-record-type table of both `generate_dns_response` copies. -/
def requestedTypeStr (qt : Nat) : Str :=
  if qt = 1 then sb "A" else if qt = 2 then sb "NS" else if qt = 5 then sb "CNAME"
  else if qt = 6 then sb "SOA" else if qt = 12 then sb "PTR" else if qt = 15 then sb "MX"
  else if qt = 16 then sb "TXT" else if qt = 28 then sb "AAAA" else []

/-- `dns.rs::generate_dns_response`.  A failed QTYPE extraction defaults
to 1 (`unwrap_or(1)`); the forwarded reply is returned unmodified. -/
def dns_generate_dns_response (env : ResolveEnv) (q domain : Str) (cfg : ServerConfig) :
    Option (Except DnsError Str) :=
  match utils_extract_query_type q with
  | none => none
  | some qto =>
    let query_type := qto.getD 1
    if query_type = 48 then
      match cfg.dnskey_records.head? with
      | some dnskey => dns_build_dnskey_response q dnskey 3600 cfg
      | none => okOrProtocol (dns_build_nxdomain_response q cfg.authoritative env.cfgEnv env.zones)
    else if query_type = 43 then
      match cfg.ds_records.head? with
      | some ds => dns_build_ds_response q ds 3600 cfg
      | none => okOrProtocol (dns_build_nxdomain_response q cfg.authoritative env.cfgEnv env.zones)
    else
      match (if query_type = 1 ∨ query_type = 28 then cache_get env.cache domain env.now else none) with
      | some (ip, ttl) => dns_build_dns_response q ip ttl cfg
      | none =>
        let requested := requestedTypeStr query_type
        match env.records.find? (fun r => r.2.2 == requested) with
        | some (value, ttl, _) =>
          if requested = sb "SOA" then dns_build_soa_response q value ttl domain cfg
          else if requested = sb "NS" then dns_build_ns_response q env.records ttl domain cfg
          else if requested = sb "MX" ∨ requested = sb "TXT" ∨ requested = sb "CNAME" ∨ requested = sb "PTR" then
            dns_build_generic_record_response q value ttl domain query_type cfg
          else if requested = sb "A" ∨ requested = sb "AAAA" then
            dns_build_dns_response q value ttl cfg
          else some (Except.error DnsError.protocol)
        | none =>
          match (if query_type = 1 ∨ query_type = 28 then
                   env.records.find? (fun r => r.2.2 == sb "A") else none) with
          | some (ip, ttl, _) => dns_build_dns_response q ip ttl cfg
          | none =>
            if cfg.authoritative ∧ (find_closest_parent_zone domain env.zones).isSome then
              okOrProtocol (dns_build_nxdomain_response q true env.cfgEnv env.zones)
            else
              match env.fwdUdp with
              | some response => some (Except.ok response)
              | none =>
                match env.fwdTcp with
                | some response => some (Except.ok response)
                | none => some (Except.error DnsError.protocol)

/-- `main.rs::generate_dns_response`.  Differences from the library copy:
the A/AAAA fallback also accepts stored AAAA records, forwarding happens
only when not authoritative and clears the AA bit of the reply, and a
failed (or skipped) forward falls back to NXDOMAIN. -/
def main_generate_dns_response (env : ResolveEnv) (q domain : Str) (cfg : ServerConfig) :
    Option (Except DnsError Str) :=
  match utils_extract_query_type q with
  | none => none
  | some qto =>
    let query_type := qto.getD 1
    if query_type = 48 then
      match cfg.dnskey_records.head? with
      | some dnskey => main_build_dnskey_response q dnskey 3600 cfg
      | none => okOrProtocol (main_build_nxdomain_response q cfg.authoritative env.cfgEnv env.zones)
    else if query_type = 43 then
      match cfg.ds_records.head? with
      | some ds => main_build_ds_response q ds 3600 cfg
      | none => okOrProtocol (main_build_nxdomain_response q cfg.authoritative env.cfgEnv env.zones)
    else
      match (if query_type = 1 ∨ query_type = 28 then cache_get env.cache domain env.now else none) with
      | some (ip, ttl) => main_build_dns_response q ip ttl cfg
      | none =>
        let requested := requestedTypeStr query_type
        match env.records.find? (fun r => r.2.2 == requested) with
        | some (value, ttl, _) =>
          if requested = sb "SOA" then main_build_soa_response q value ttl domain cfg
          else if requested = sb "NS" then main_build_ns_response q env.records ttl domain cfg
          else if requested = sb "MX" ∨ requested = sb "TXT" ∨ requested = sb "CNAME" ∨ requested = sb "PTR" then
            main_build_generic_record_response q value ttl domain query_type cfg
          else if requested = sb "A" ∨ requested = sb "AAAA" then
            main_build_dns_response q value ttl cfg
          else some (Except.error DnsError.protocol)
        | none =>
          match (if query_type = 1 ∨ query_type = 28 then
                   env.records.find? (fun r => r.2.2 == sb "A" || r.2.2 == sb "AAAA") else none) with
          | some (ip, ttl, _) => main_build_dns_response q ip ttl cfg
          | none =>
            let is_auth := (find_closest_parent_zone domain env.zones).isSome ∧ cfg.authoritative
            match (if ¬is_auth ∧ cfg.forwarders ≠ [] then env.fwdUdp else none) with
            | some resp => some (Except.ok (clear_aa resp))
            | none => okOrProtocol (main_build_nxdomain_response q is_auth env.cfgEnv env.zones)

/-! ## Wire-format QNAMEs (spec §4.A) and claim instances -/

/-- The label part of a wire-format name: `len, bytes…` per label. -/
def wireCore : List Str → Str
  | [] => []
  | l :: ls => l.length :: l ++ wireCore ls

/-- A full wire-format name: labels then the terminating zero octet. -/
def wireName (ls : List Str) : Str := wireCore ls ++ [0]

/-- A label that survives the codec round-trip: non-empty, at most 63
bytes, no dot byte, valid UTF-8. -/
def goodLabel (l : Str) : Prop :=
  1 ≤ l.length ∧ l.length ≤ 63 ∧ 46 ∉ l ∧ isValidUtf8 l = true

/-- Decidability of `goodLabel`, for concrete witnesses. -/
instance goodLabelDecidable (l : Str) : Decidable (goodLabel l) := by
  unfold goodLabel
  exact inferInstance

/-- A valid wire-format QNAME per spec §4.A: length-prefixed labels
(each 1–63 bytes) closed by a zero octet. -/
def isWireQname (b : Str) : Prop :=
  ∃ ls, (∀ l ∈ ls, 1 ≤ l.length ∧ l.length ≤ 63) ∧ b = wireName ls

/-- Separator-prefixed flattening of labels. -/
def sepDots : List Str → Str
  | [] => []
  | l :: ls => 46 :: l ++ sepDots ls

/-- Labels joined with `.` — the textual domain the extractor produces. -/
def dots : List Str → Str
  | [] => []
  | l :: ls => l ++ sepDots ls

/-- The extractor's accumulator: fold labels into `acc`, dot-separated. -/
def dotAcc (acc : Str) : List Str → Str
  | [] => acc
  | l :: ls => dotAcc (if acc.isEmpty then l else acc ++ 46 :: l) ls

/-! Concrete instances used by the per-claim theorems. -/

/-- C1: an A query for `a` (id 1, RD set). -/
def c1q : Str := [0, 1, 1, 0, 0, 1, 0, 0, 0, 0, 0, 0] ++ [1, 97, 0] ++ [0, 1, 0, 1]

/-- C1: an upstream reply with the AA bit set (flags byte 2 = 0x84). -/
def c1up : Str := [0, 1, 132, 128, 0, 1, 0, 1, 0, 0, 0, 0]

/-- C1: non-authoritative config with one forwarder. -/
def c1cfg : ServerConfig := ⟨false, [], 600, [1], [], []⟩

/-- C1: empty store and cache, the UDP forwarder pass answers `c1up`. -/
def c1env : ResolveEnv := ⟨[], [], some c1cfg, some c1up, none, [], 0⟩

/-- C2: an A query for `missing.example.com` (id 0xBEEF, RD set). -/
def c2q : Str := [190, 239, 1, 0, 0, 1, 0, 0, 0, 0, 0, 0]
  ++ [7] ++ sb "missing" ++ [7] ++ sb "example" ++ [3] ++ sb "com" ++ [0] ++ [0, 1, 0, 1]

/-- C2: authoritative config with the two stock NS names. -/
def c2cfg : ServerConfig :=
  ⟨true, [sb "ns1.example.com.", sb "ns2.example.com."], 600, [], [], []⟩

/-- C2: the single zone `example.com` with two NS records and an SOA. -/
def c2zones : List ZoneInfo :=
  [⟨sb "example.com", [sb "ns1.example.com.", sb "ns2.example.com."],
    some (sb "ns1.example.com. hostmaster.example.com 1 10800 3600 604800 86400")⟩]

/-- C2: the SOA authority RR the library builder emits for that zone. -/
def c2soaRR : Str :=
  utils_encode_dns_name (sb "example.com") ++ [0, 6, 0, 1] ++ be32 600 ++ be16 61
    ++ utils_encode_dns_name (sb "ns1.example.com.")
    ++ utils_encode_dns_name (sb "hostmaster.example.com")
    ++ be32 1 ++ be32 10800 ++ be32 3600 ++ be32 604800 ++ be32 86400

/-- C2: the NS authority RR for nameserver `n`. -/
def c2nsRR (n : String) : Str :=
  utils_encode_dns_name (sb "example.com") ++ [0, 2, 0, 1] ++ be32 600 ++ be16 17
    ++ utils_encode_dns_name (sb n)

/-- C2: header claimed by the library builder: ANCOUNT 0, NSCOUNT 1, ARCOUNT 0. -/
def c2hdr : Str := [190, 239, 133, 131, 0, 1, 0, 0, 0, 1, 0, 0]

/-- C2: the copied question section. -/
def c2question : Str :=
  [7] ++ sb "missing" ++ [7] ++ sb "example" ++ [3] ++ sb "com" ++ [0] ++ [0, 1, 0, 1]

/-- C3: an A query for `example.com` carrying an OPT RR with payload 1232
and the DO bit set (ARCOUNT 1). -/
def c3q : Str := [0, 3, 1, 0, 0, 1, 0, 0, 0, 0, 0, 1]
  ++ [7] ++ sb "example" ++ [3] ++ sb "com" ++ [0] ++ [0, 1, 0, 1]
  ++ [0, 0, 41, 4, 208, 0, 0, 128, 0, 0, 0]

/-- C3: non-authoritative config. -/
def c3cfg : ServerConfig := ⟨false, [], 600, [], [], []⟩

/-- C3: the header the library builder emits — ARCOUNT bytes 10–11 are 0. -/
def c3hdr : Str := [0, 3, 129, 128, 0, 1, 0, 1, 0, 0, 0, 0]

/-- C3: the copied question section. -/
def c3question : Str := [7] ++ sb "example" ++ [3] ++ sb "com" ++ [0] ++ [0, 1, 0, 1]

/-- C3: the A answer RR. -/
def c3answer : Str := [192, 12, 0, 1, 0, 1] ++ be32 60 ++ [0, 4, 10, 0, 0, 1]

/-- C3: the appended OPT RR: payload 1232 echoed, DO flags zero (the
scanner reads the version octet instead of the flags octet). -/
def c3opt : Str := [0, 0, 41, 4, 208, 0, 0, 0, 0, 0, 0]

/-- C4: an A query for `host.example.com` (id 0xABCD, RD set, no OPT). -/
def c4q : Str := [171, 205, 1, 0, 0, 1, 0, 0, 0, 0, 0, 0]
  ++ [4] ++ sb "host" ++ [7] ++ sb "example" ++ [3] ++ sb "com" ++ [0] ++ [0, 1, 0, 1]

/-- C4: authoritative config with exactly two NS records. -/
def c4cfg : ServerConfig :=
  ⟨true, [sb "ns1.example.com.", sb "ns2.example.com."], 600, [], [], []⟩

/-- C4: header of the library builder's answer: NSCOUNT bytes 8–9 are `0, 2`. -/
def c4hdr : Str := [171, 205, 133, 128, 0, 1, 0, 1, 0, 2, 0, 0]

/-- C4: the copied question section. -/
def c4question : Str :=
  [4] ++ sb "host" ++ [7] ++ sb "example" ++ [3] ++ sb "com" ++ [0] ++ [0, 1, 0, 1]

/-- C4: the single A answer RR. -/
def c4answer : Str := [192, 12, 0, 1, 0, 1] ++ be32 60 ++ [0, 4, 10, 0, 0, 1]

/-- C4: the NS authority RR the binary builder emits for nameserver `n`. -/
def c4nsRR (n : String) : Str :=
  [192, 12, 0, 2, 0, 1] ++ be32 60 ++ be16 17 ++ utils_encode_dns_name (sb n)

/-- C8: an MX query for `example.com` (id 8, RD set, no OPT). -/
def c8q : Str := [0, 8, 1, 0, 0, 1, 0, 0, 0, 0, 0, 0]
  ++ [7] ++ sb "example" ++ [3] ++ sb "com" ++ [0] ++ [0, 15, 0, 1]

/-- C8: a stored MX value whose preference field `xx` is not a number. -/
def c8value : Str := sb "xx mail.example.com."

/-- C8: non-authoritative config. -/
def c8cfg : ServerConfig := ⟨false, [], 600, [], [], []⟩

/-- C8: everything the binary builder emits before the MX RDLENGTH. -/
def c8front : Str := [0, 8, 129, 128, 0, 1, 0, 1, 0, 0, 0, 0]
  ++ [7] ++ sb "example" ++ [3] ++ sb "com" ++ [0] ++ [0, 15, 0, 1]
  ++ [192, 12, 0, 15, 0, 1] ++ be32 300

/-- C9 witness: an A query for `a`. -/
def c9q : Str := [0, 9, 0, 0, 0, 1, 0, 0, 0, 0, 0, 0] ++ [1, 97, 0] ++ [0, 1, 0, 1]

/-- C9 witness: non-authoritative config. -/
def c9cfg : ServerConfig := ⟨false, [], 600, [1], [], []⟩

/-- C9 witness: the upstream reply the forwarder returns. -/
def c9up : Str := [0, 9, 128, 128, 0, 1, 0, 1, 0, 0, 0, 0]

/-- C9 witness: environment whose record list is the (empty) result of a
failed lookup; the UDP forwarder answers. -/
def c9env : ResolveEnv :=
  ⟨db_lookup_records DbOutcome.connErr, [], some c9cfg, some c9up, none, [], 0⟩

/-- C10 witness: a 13-byte query — the packet ends right after the QNAME,
so no QTYPE can be extracted. -/
def c10q : Str := List.replicate 12 0 ++ [0]

/-- C10 witness: a cache holding a fresh entry for the queried domain. -/
def c10env : ResolveEnv :=
  ⟨[], [], none, none, none, [(sb "a", CacheEntry.mk (sb "10.1.1.1") 0 60)], 0⟩

/-- C10 witness: non-authoritative config. -/
def c10cfg : ServerConfig := ⟨false, [], 600, [], [], []⟩

/-! ## Supporting lemmas -/

/-- The `utils.rs::extract_domain` loop terminates without any
out-of-bounds access: every index read is guarded in the source. -/
theorem edLoop_no_fault (q : Str) :
    ∀ (fuel pos : Nat) (acc : Str), q.length - pos < fuel → edLoop q fuel pos acc ≠ none := by
  intro fuel
  induction fuel with
  | zero => intro pos acc h; omega
  | succ f ih =>
    intro pos acc h
    simp only [edLoop]
    by_cases hle : q.length ≤ pos
    · simp [hle]
    · simp only [if_neg hle]
      cases hq : q.get? pos with
      | none =>
        have := List.get?_eq_none.mp hq
        omega
      | some len =>
        by_cases h0 : len = 0
        · simp [h0]
        · simp only [if_neg h0]
          by_cases hb : q.length < pos + 1 + len
          · simp [hb]
          · simp only [if_neg hb]
            split
            · exact ih (pos + 1 + len) _ (by omega)
            · simp

/-- The `utils.rs::extract_query_type` loop terminates without any
out-of-bounds access. -/
theorem eqLoop_no_fault (q : Str) :
    ∀ (fuel pos : Nat), q.length - pos < fuel → eqLoop q fuel pos ≠ none := by
  intro fuel
  induction fuel with
  | zero => intro pos h; omega
  | succ f ih =>
    intro pos h
    simp only [eqLoop]
    by_cases hle : q.length ≤ pos
    · simp [hle]
    · simp only [if_neg hle]
      cases hq : q.get? pos with
      | none =>
        have := List.get?_eq_none.mp hq
        omega
      | some len =>
        by_cases h0 : len = 0
        · simp only [h0, if_pos rfl]
          by_cases h2 : pos + 2 < q.length
          · simp only [if_pos h2]
            cases h1q : q.get? (pos + 1) with
            | none => have := List.get?_eq_none.mp h1q; omega
            | some hi =>
              cases h2q : q.get? (pos + 2) with
              | none => have := List.get?_eq_none.mp h2q; omega
              | some lo => simp
          · simp [h2]
        · simp only [if_neg h0]
          exact ih (pos + len + 1) (by omega)

/-- Folding labels into a non-empty accumulator just appends them,
dot-separated. -/
theorem dotAcc_append : ∀ (ls : List Str) (acc : Str), acc ≠ [] → dotAcc acc ls = acc ++ sepDots ls := by
  intro ls
  induction ls with
  | nil => intro acc h; simp [dotAcc, sepDots]
  | cons l tl ih =>
    intro acc h
    have hne : acc.isEmpty = false := by simpa [List.isEmpty_iff] using h
    simp only [dotAcc, hne, Bool.false_eq_true, if_false]
    rw [ih (acc ++ 46 :: l) (by simp)]
    simp [sepDots]

/-- Starting from the empty accumulator yields the dot-joined labels. -/
theorem dotAcc_nil (ls : List Str) (h : ∀ l ∈ ls, l ≠ []) : dotAcc [] ls = dots ls := by
  cases ls with
  | nil => rfl
  | cons l tl =>
    have : dotAcc [] (l :: tl) = dotAcc l tl := by simp [dotAcc]
    rw [this, dotAcc_append tl l (h l (by simp))]
    rfl

/-- `dots` agrees with `Vec::join(".")`. -/
theorem dots_eq_intercalate : ∀ ls : List Str, dots ls = [46].intercalate ls := by
  intro ls
  induction ls with
  | nil => simp [dots, List.intercalate]
  | cons a tl ih =>
    cases tl with
    | nil => simp [dots, sepDots, List.intercalate]
    | cons b tl2 =>
      have hstep : List.intercalate [46] (a :: b :: tl2) = a ++ 46 :: List.intercalate [46] (b :: tl2) := by
        simp [List.intercalate, List.intersperse]
      rw [hstep, ← ih]
      simp [dots, sepDots]

/-- The encoder emits exactly the wire name when labels fit in 63 bytes. -/
theorem encodeParts_eq_wireName : ∀ ls : List Str, (∀ l ∈ ls, l.length ≤ 63) →
    encodeParts ls = wireName ls := by
  intro ls
  induction ls with
  | nil => intro _; rfl
  | cons l tl ih =>
    intro h
    have h63 : l.length ≤ 63 := h l (by simp)
    simp only [encodeParts, if_neg (by omega : ¬ 63 < l.length)]
    rw [ih (fun x hx => h x (by simp [hx]))]
    simp [wireName, wireCore, Nat.mod_eq_of_lt (by omega : l.length < 256), List.append_assoc]

/-- `dots` of non-empty labels is non-empty. -/
theorem dots_ne_nil (ls : List Str) (hne : ls ≠ []) (h : ∀ l ∈ ls, l ≠ []) : dots ls ≠ [] := by
  cases ls with
  | nil => exact absurd rfl hne
  | cons l tl =>
    have := h l (by simp)
    simp [dots]
    intro hl
    exact absurd hl this

/-- The last byte of the dot-joined labels is never a dot. -/
theorem getLast?_dots (ls : List Str) (hne : ls ≠ []) (h : ∀ l ∈ ls, l ≠ [] ∧ 46 ∉ l) :
    (dots ls).getLast? ≠ some 46 := by
  induction ls with
  | nil => exact absurd rfl hne
  | cons l tl ih =>
    cases tl with
    | nil =>
      obtain ⟨hl, hd⟩ := h l (by simp)
      show (dots [l]).getLast? ≠ some 46
      have : dots [l] = l := by simp [dots, sepDots]
      rw [this]
      intro hlast
      obtain ⟨hne', heq⟩ := List.mem_getLast?_eq_getLast hlast
      exact hd (heq ▸ List.getLast_mem hne')
    | cons b tl2 =>
      have hd2 : dots (l :: b :: tl2) = l ++ (46 :: dots (b :: tl2)) := by
        simp [dots, sepDots]
      rw [hd2]
      have hdne : dots (b :: tl2) ≠ [] :=
        dots_ne_nil (b :: tl2) (by simp) (fun x hx => (h x (by simp [hx])).1)
      have h1 : (l ++ (46 :: dots (b :: tl2))).getLast? = (46 :: dots (b :: tl2)).getLast? := by
        rw [List.getLast?_append]
        cases hgl : (46 :: dots (b :: tl2)).getLast? with
        | none => simp [List.getLast?_eq_none_iff] at hgl
        | some a => rfl
      rw [h1]
      have h2 : (46 :: dots (b :: tl2)).getLast? = (dots (b :: tl2)).getLast? := by
        cases hd : dots (b :: tl2) with
        | nil => exact absurd hd hdne
        | cons x xs => simp [List.getLast?_cons_cons]
      rw [h2]
      exact ih (by simp) (fun x hx => h x (by simp [hx]))

/-- Strings with no trailing dot are untouched by `trim_end_matches('.')`. -/
theorem trimEndDots_eq_self (s : Str) (h : s.getLast? ≠ some 46) : trimEndDots s = s := by
  unfold trimEndDots
  cases hs : s.reverse with
  | nil =>
    have : s = [] := List.reverse_eq_nil_iff.mp hs
    simp [this]
  | cons b t =>
    have hb : s.getLast? = some b := by
      rw [← List.head?_reverse, hs]; rfl
    have hbne : (b == 46) = false := by
      rcases eq_or_ne b 46 with hb46 | hb46
      · exact absurd (hb46 ▸ hb) h
      · simp [hb46]
    rw [List.dropWhile_cons, hbne]
    simp [← hs]

/-- Encoding the dot-joined labels reproduces the wire name. -/
theorem encode_dots (ls : List Str) (hne : ls ≠ []) (h : ∀ l ∈ ls, goodLabel l) :
    utils_encode_dns_name (dots ls) = wireName ls := by
  unfold utils_encode_dns_name
  rw [trimEndDots_eq_self _ (getLast?_dots ls hne (fun l hl => ⟨by
        have := (h l hl).1; intro hnil; rw [hnil] at this; simp at this,
      (h l hl).2.2.1⟩))]
  rw [dots_eq_intercalate]
  rw [List.splitOn_intercalate ls 46 (fun l hl => (h l hl).2.2.1) hne]
  exact encodeParts_eq_wireName ls (fun l hl => (h l hl).2.1)

/-- Walking a well-formed wire name: the extractor loop consumes exactly
the labels, accumulates them dot-separated and stops at the zero octet. -/
theorem edLoop_wire (q : Str) :
    ∀ (ls : List Str) (pos : Nat) (tail acc : Str) (fuel : Nat),
    (∀ l ∈ ls, goodLabel l) →
    q.drop pos = wireCore ls ++ 0 :: tail →
    (wireCore ls).length < fuel →
    edLoop q fuel pos acc = some (some (dotAcc acc ls, pos + (wireCore ls).length)) := by
  intro ls
  induction ls with
  | nil =>
    intro pos tail acc fuel hgood hdrop hfuel
    simp only [wireCore, List.nil_append] at hdrop
    have hlen : q.length - pos = tail.length + 1 := by
      have := congrArg List.length hdrop
      simpa [List.length_drop] using this
    have hpos : pos < q.length := by omega
    obtain ⟨f, rfl⟩ : ∃ f, fuel = f + 1 := ⟨fuel - 1, by omega⟩
    have hget : q[pos]? = some 0 := by
      have h0 : (q.drop pos)[0]? = q[pos + 0]? := List.getElem?_drop ..
      rw [hdrop] at h0
      simpa using h0.symm
    simp [edLoop, if_neg (by omega : ¬ q.length ≤ pos), hget, wireCore, dotAcc]
  | cons l tl ih =>
    intro pos tail acc fuel hgood hdrop hfuel
    obtain ⟨hl1, hl63, hldot, hlutf⟩ := hgood l (by simp)
    have hdrop' : q.drop pos = l.length :: (l ++ (wireCore tl ++ 0 :: tail)) := by
      simpa [wireCore, List.append_assoc] using hdrop
    have hlen : q.length - pos = 1 + (l.length + ((wireCore tl).length + (tail.length + 1))) := by
      have := congrArg List.length hdrop'
      simp [List.length_drop, List.length_append] at this
      omega
    have hpos : pos < q.length := by omega
    have hfc : (wireCore (l :: tl)).length = 1 + l.length + (wireCore tl).length := by
      simp [wireCore]
      omega
    rw [hfc] at hfuel
    obtain ⟨f, rfl⟩ : ∃ f, fuel = f + 1 := ⟨fuel - 1, by omega⟩
    have hget : q[pos]? = some l.length := by
      have h0 : (q.drop pos)[0]? = q[pos + 0]? := List.getElem?_drop ..
      rw [hdrop'] at h0
      simpa using h0.symm
    have hdrop1 : q.drop (pos + 1) = l ++ (wireCore tl ++ 0 :: tail) := by
      have hd : (q.drop pos).drop 1 = q.drop (pos + 1) := List.drop_drop 1 pos q
      rw [← hd, hdrop']
      rfl
    have htake : (q.drop (pos + 1)).take l.length = l := by
      rw [hdrop1]
      exact List.take_left l _
    have hdrop2 : q.drop (pos + 1 + l.length) = wireCore tl ++ 0 :: tail := by
      have hd : (q.drop (pos + 1)).drop l.length = q.drop (pos + 1 + l.length) :=
        List.drop_drop l.length (pos + 1) q
      rw [← hd, hdrop1]
      exact List.drop_left l _
    have hrec := ih (pos + 1 + l.length) tail
      (if acc.isEmpty then l else acc ++ 46 :: l) f
      (fun x hx => hgood x (by simp [hx])) hdrop2 (by omega)
    have hneg1 : ¬ q.length ≤ pos := by omega
    have hneg2 : ¬ l.length = 0 := by omega
    have hneg3 : ¬ q.length < pos + 1 + l.length := by omega
    simp only [edLoop, List.get?_eq_getElem?, hget, if_neg hneg1, if_neg hneg2, if_neg hneg3,
      htake, hlutf, eq_self_iff_true, if_true]
    rw [hrec]
    have hpe : pos + 1 + l.length + (wireCore tl).length = pos + (wireCore (l :: tl)).length := by
      rw [hfc]; omega
    rw [hpe]
    rfl

/-- C6 amended: round trip on wire QNAMEs with at least one label, each
label 1–63 bytes, dot-free and valid UTF-8. -/
theorem c6_amended_theorem (ls : List Str) (hne : ls ≠ []) (hl : ∀ l ∈ ls, goodLabel l) :
    utils_extract_domain (List.replicate 12 0 ++ wireName ls ++ [0, 1, 0, 1]) =
      some (some (dots ls)) ∧
    utils_encode_dns_name (dots ls) = wireName ls := by
  constructor
  · set q : Str := List.replicate 12 0 ++ wireName ls ++ [0, 1, 0, 1] with hq
    have hql : q.length = 17 + (wireCore ls).length := by
      simp [hq, wireName, List.length_append]
      omega
    have hdrop12 : q.drop 12 = wireCore ls ++ 0 :: [0, 1, 0, 1] := by
      have h1 : q.drop 12 = wireName ls ++ [0, 1, 0, 1] := by
        have := List.drop_left (List.replicate 12 0 : Str) (wireName ls ++ [0, 1, 0, 1])
        simpa [hq, List.append_assoc] using this
      rw [h1]
      simp [wireName, List.append_assoc]
    have hloop := edLoop_wire q ls 12 [0, 1, 0, 1] [] (q.length + 1) hl hdrop12 (by omega)
    unfold utils_extract_domain
    rw [if_neg (by omega : ¬ q.length < 12), hloop]
    show (if q.length < 12 + (wireCore ls).length + 4 then some none
      else some (some (dotAcc [] ls))) = some (some (dots ls))
    rw [if_neg (by omega : ¬ q.length < 12 + (wireCore ls).length + 4)]
    rw [dotAcc_nil ls (fun l hlm => by
      have := (hl l hlm).1
      intro hnil
      rw [hnil] at this
      simp at this)]
  · exact encode_dots ls hne hl

/-- C6 witness instance: the two-label name `ab.cd`. -/
theorem c6_witness :
    ([sb "ab", sb "cd"] : List Str) ≠ [] ∧
    (∀ l ∈ ([sb "ab", sb "cd"] : List Str), goodLabel l) ∧
    (utils_extract_domain (List.replicate 12 0 ++ wireName [sb "ab", sb "cd"] ++ [0, 1, 0, 1]) =
        some (some (dots [sb "ab", sb "cd"])) ∧
      utils_encode_dns_name (dots [sb "ab", sb "cd"]) = wireName [sb "ab", sb "cd"]) :=
  ⟨by decide, by decide, c6_amended_theorem [sb "ab", sb "cd"] (by decide) (by decide)⟩

/-- C6 counterexample: the root QNAME `[0]` is a valid wire QNAME, the
decoder maps it to the empty domain, and the encoder returns `[0, 0]`,
not `[0]` — the round trip fails. -/
theorem c6_counterexample :
    isWireQname [0] ∧
    utils_extract_domain (List.replicate 12 0 ++ [0] ++ [0, 1, 0, 1]) = some (some []) ∧
    utils_encode_dns_name [] ≠ [0] :=
  ⟨⟨[], by simp, rfl⟩, rfl, by decide⟩

/-- C7: the library parsers terminate and never read out of bounds on any
byte string, while the binary's `extract_domain` reads `query[12]` of a
12-byte packet out of bounds (a panic in Rust). -/
theorem c7_parsing_safety :
    (∀ q : Str, utils_extract_domain q ≠ none) ∧
    (∀ q : Str, utils_extract_query_type q ≠ none) ∧
    mainsrc_extract_domain (List.replicate 12 0) = none := by
  refine ⟨?_, ?_, rfl⟩
  · intro q
    unfold utils_extract_domain
    by_cases h12 : q.length < 12
    · simp [h12]
    · simp only [if_neg h12]
      have hnf := edLoop_no_fault q (q.length + 1) 12 [] (by omega)
      cases he : edLoop q (q.length + 1) 12 [] with
      | none => exact absurd he hnf
      | some o =>
        cases o with
        | none => simp
        | some pr =>
          obtain ⟨dom, posZ⟩ := pr
          by_cases hz : q.length < posZ + 4 <;> simp [hz]
  · intro q
    unfold utils_extract_query_type
    by_cases h12 : q.length < 12
    · simp [h12]
    · simp only [if_neg h12]
      exact eqLoop_no_fault q (q.length + 1) 12 (by omega)

/-- C5 amended: after `set`, `get` answers while the truncated elapsed
seconds are at most the TTL — and also whenever the clock moved
backwards — and once the truncated elapsed seconds exceed the TTL,
`get` answers none and `cleanup` removes the entry. -/
theorem c5_amended_theorem (m : List (Str × CacheEntry)) (d ip : Str) (ttl t0 now : Nat) :
    ((now < t0 ∨ (now - t0) / 1000 ≤ ttl) →
      cache_get (cache_set m d ip ttl t0) d now = some (ip, ttl)) ∧
    (t0 ≤ now → ttl < (now - t0) / 1000 →
      cache_get (cache_set m d ip ttl t0) d now = none ∧
      (cache_cleanup (cache_set m d ip ttl t0) now).find? (fun p => p.1 == d) = none) := by
  constructor
  · intro hv
    by_cases hlt : now < t0
    · simp [cache_get, cache_set, List.find?, entry_valid, hlt]
    · rcases hv with hv | hv
      · omega
      · simp [cache_get, cache_set, List.find?, entry_valid, hlt, hv]
  · intro h hgt
    have hvalid : entry_valid now (CacheEntry.mk ip t0 ttl) = decide ((now - t0) / 1000 ≤ ttl) := by
      simp [entry_valid, Nat.not_lt.mpr h]
    constructor
    · simp [cache_get, cache_set, List.find?, hvalid, Nat.not_le.mpr hgt]
    · have hinv : entry_valid now (CacheEntry.mk ip t0 ttl) = false := by
        simp [hvalid, Nat.not_le.mpr hgt]
      simp only [cache_cleanup, cache_set, List.filter, hinv]
      apply List.find?_eq_none.mpr
      intro x hx
      have hx1 := (List.mem_filter.mp hx).1
      have hx2 := (List.mem_filter.mp hx1).2
      simpa using hx2

/-- C5 witness instances of the amended theorem: a clock that moved
backwards (set at 200 ms, read at 100 ms) still answers, and an expired
entry (ttl 1 s, elapsed 5 s) is gone and swept. -/
theorem c5_witness :
    ((100 : Nat) < 200 ∨ (100 - 200) / 1000 ≤ 1) ∧
    cache_get (cache_set [] (sb "d") (sb "1.2.3.4") 1 200) (sb "d") 100 =
      some (sb "1.2.3.4", 1) ∧
    (0 : Nat) ≤ 5000 ∧ 1 < (5000 - 0) / 1000 ∧
    cache_get (cache_set [] (sb "d") (sb "1.2.3.4") 1 0) (sb "d") 5000 = none ∧
    (cache_cleanup (cache_set [] (sb "d") (sb "1.2.3.4") 1 0) 5000).find?
        (fun p => p.1 == sb "d") = none :=
  ⟨by decide,
    (c5_amended_theorem [] (sb "d") (sb "1.2.3.4") 1 200 100).1 (by decide),
    by decide, by decide,
    ((c5_amended_theorem [] (sb "d") (sb "1.2.3.4") 1 0 5000).2 (by decide) (by decide)).1,
    ((c5_amended_theorem [] (sb "d") (sb "1.2.3.4") 1 0 5000).2 (by decide) (by decide)).2⟩

/-- C5 counterexample: ttl 60 s, elapsed 60.5 s — wall-clock time strictly
exceeds the TTL, yet `get` still answers and `cleanup` keeps the entry. -/
theorem c5_counterexample :
    60 * 1000 < 60500 ∧
    cache_get (cache_set [] (sb "example.com") (sb "10.0.0.1") 60 0) (sb "example.com") 60500 =
      some (sb "10.0.0.1", 60) ∧
    cache_cleanup (cache_set [] (sb "example.com") (sb "10.0.0.1") 60 0) 60500 =
      cache_set [] (sb "example.com") (sb "10.0.0.1") 60 0 :=
  ⟨by decide, rfl, rfl⟩

/-- C8 counterexample: the library MX builder rejects a stored value with
unparsable preference instead of defaulting to 10. -/
theorem c8_counterexample :
    parseU16 (sb "xx") = none ∧
    dns_build_generic_record_response c8q c8value 300 (sb "example.com") 15 c8cfg =
      some (Except.error DnsError.config) :=
  ⟨rfl, rfl⟩

/-- C8 amended: every MX answer the binary builder produces — for any
query whose id, flags byte, QDCOUNT and question section are
extractable, any config, TTL, domain and stored value splitting into a
preference field and an exchange — carries RDATA consisting of the
16-bit preference (the parsed value, or 10 when unparsable,
`parse::<u16>().unwrap_or(10)`) followed by the encoded exchange name. -/
theorem c8_amended_theorem (q v p0 p1 tid qd qsec : Str) (b2 : Nat) (rest : List Str)
    (ttl : Nat) (domain : Str) (cfg : ServerConfig)
    (htid : sliceQ q 0 2 = some tid)
    (hb2 : q.get? 2 = some b2)
    (hqd : sliceQ q 4 6 = some qd)
    (hq : dns_question q = some (Except.ok qsec))
    (hsplit : splitWs v = p0 :: p1 :: rest) :
    main_build_generic_record_response q v ttl domain 15 cfg =
      some (Except.ok (tid
        ++ [if cfg.authoritative then (128 ||| (b2 &&& 1)) ||| 4 else 128 ||| (b2 &&& 1), 128]
        ++ qd ++ [0, 1] ++ [0, if cfg.authoritative then 2 else 0] ++ [0, 0]
        ++ qsec ++ [192, 12] ++ be16 15 ++ [0, 1] ++ be32 ttl
        ++ be16 (2 + (utils_encode_dns_name p1).length)
        ++ be16 ((parseU16 p0).getD 10)
        ++ utils_encode_dns_name p1
        ++ (if cfg.authoritative then
              (cfg.ns_records.map (fun ns =>
                [192, 12, 0, 2, 0, 1] ++ be32 ttl
                  ++ be16 (utils_encode_dns_name ns).length ++ utils_encode_dns_name ns)).flatten
            else []))) := by
  have hb2' : q[2]? = some b2 := by
    rw [← List.get?_eq_getElem?]
    exact hb2
  unfold main_build_generic_record_response
  simp only [List.get?_eq_getElem?]
  rw [htid, hb2', hqd, hq, hsplit]
  rfl

/-- C8 witness instances of the amended theorem, on a concrete MX query:
an unparsable preference (`xx`) becomes the bytes `0, 10`, a parsable
one (`20`) is kept as `0, 20`; in both cases the RDATA is the
preference then the encoded exchange name. -/
theorem c8_witness :
    splitWs c8value = [sb "xx", sb "mail.example.com."] ∧
    parseU16 (sb "xx") = none ∧
    be16 ((parseU16 (sb "xx")).getD 10) = [0, 10] ∧
    parseU16 (sb "20") = some 20 ∧
    be16 ((parseU16 (sb "20")).getD 10) = [0, 20] ∧
    main_build_generic_record_response c8q c8value 300 (sb "example.com") 15 c8cfg =
      some (Except.ok ([0, 8]
        ++ [if c8cfg.authoritative then (128 ||| (1 &&& 1)) ||| 4 else 128 ||| (1 &&& 1), 128]
        ++ [0, 1] ++ [0, 1] ++ [0, if c8cfg.authoritative then 2 else 0] ++ [0, 0]
        ++ ([7] ++ sb "example" ++ [3] ++ sb "com" ++ [0] ++ [0, 15, 0, 1])
        ++ [192, 12] ++ be16 15 ++ [0, 1] ++ be32 300
        ++ be16 (2 + (utils_encode_dns_name (sb "mail.example.com.")).length)
        ++ be16 ((parseU16 (sb "xx")).getD 10)
        ++ utils_encode_dns_name (sb "mail.example.com.")
        ++ (if c8cfg.authoritative then
              (c8cfg.ns_records.map (fun ns =>
                [192, 12, 0, 2, 0, 1] ++ be32 300
                  ++ be16 (utils_encode_dns_name ns).length ++ utils_encode_dns_name ns)).flatten
            else []))) ∧
    main_build_generic_record_response c8q (sb "20 mail.example.com.") 300 (sb "example.com") 15 c8cfg =
      some (Except.ok ([0, 8]
        ++ [if c8cfg.authoritative then (128 ||| (1 &&& 1)) ||| 4 else 128 ||| (1 &&& 1), 128]
        ++ [0, 1] ++ [0, 1] ++ [0, if c8cfg.authoritative then 2 else 0] ++ [0, 0]
        ++ ([7] ++ sb "example" ++ [3] ++ sb "com" ++ [0] ++ [0, 15, 0, 1])
        ++ [192, 12] ++ be16 15 ++ [0, 1] ++ be32 300
        ++ be16 (2 + (utils_encode_dns_name (sb "mail.example.com.")).length)
        ++ be16 ((parseU16 (sb "20")).getD 10)
        ++ utils_encode_dns_name (sb "mail.example.com.")
        ++ (if c8cfg.authoritative then
              (c8cfg.ns_records.map (fun ns =>
                [192, 12, 0, 2, 0, 1] ++ be32 300
                  ++ be16 (utils_encode_dns_name ns).length ++ utils_encode_dns_name ns)).flatten
            else []))) :=
  ⟨rfl, rfl, rfl, rfl, rfl,
    c8_amended_theorem c8q c8value (sb "xx") (sb "mail.example.com.") [0, 8] [0, 1]
      ([7] ++ sb "example" ++ [3] ++ sb "com" ++ [0] ++ [0, 15, 0, 1]) 1 []
      300 (sb "example.com") c8cfg rfl rfl rfl rfl rfl,
    c8_amended_theorem c8q (sb "20 mail.example.com.") (sb "20") (sb "mail.example.com.")
      [0, 8] [0, 1] ([7] ++ sb "example" ++ [3] ++ sb "com" ++ [0] ++ [0, 15, 0, 1]) 1 []
      300 (sb "example.com") c8cfg rfl rfl rfl rfl rfl⟩

/-- C1 counterexample: the library resolver returns the forwarder's reply
verbatim — the reply still differs from its AA-cleared form, so the
emitted bytes are not the upstream bytes with AA cleared. -/
theorem c1_counterexample :
    dns_generate_dns_response c1env c1q (sb "a") c1cfg = some (Except.ok c1up) ∧
    clear_aa c1up ≠ c1up :=
  ⟨rfl, by decide⟩

/-- C1 amended: the binary resolver, whenever it reaches the forwarding
step (it is not the case that a covering zone exists and the server is
authoritative, forwarders are configured, and a reply comes back), emits
exactly the upstream reply with bit 0x04 of byte 2 cleared (replies
shorter than 3 bytes are returned unmodified), and touches no other
byte. -/
theorem c1_amended_theorem (env : ResolveEnv) (q domain resp : Str) (cfg : ServerConfig)
    (qto : Option Nat)
    (hqt : utils_extract_query_type q = some qto)
    (h48 : qto.getD 1 ≠ 48) (h43 : qto.getD 1 ≠ 43)
    (hcache : cache_get env.cache domain env.now = none)
    (hexact : env.records.find? (fun r => r.2.2 == requestedTypeStr (qto.getD 1)) = none)
    (hfall : env.records.find? (fun r => r.2.2 == sb "A" || r.2.2 == sb "AAAA") = none)
    (hzone : ¬((find_closest_parent_zone domain env.zones).isSome ∧ cfg.authoritative))
    (hfwd : cfg.forwarders ≠ [])
    (hresp : env.fwdUdp = some resp) :
    main_generate_dns_response env q domain cfg = some (Except.ok (clear_aa resp)) ∧
    (clear_aa resp).length = resp.length ∧
    ∀ i, i ≠ 2 → (clear_aa resp).get? i = resp.get? i := by
  refine ⟨?_, ?_, ?_⟩
  · unfold main_generate_dns_response
    rw [hqt]
    simp only [if_neg h48, if_neg h43]
    have hcs : (if qto.getD 1 = 1 ∨ qto.getD 1 = 28
        then cache_get env.cache domain env.now else none) = none := by
      split
      · exact hcache
      · rfl
    have hfs : (if qto.getD 1 = 1 ∨ qto.getD 1 = 28
        then env.records.find? (fun r => r.2.2 == sb "A" || r.2.2 == sb "AAAA") else none) = none := by
      split
      · exact hfall
      · rfl
    rw [hcs, hexact, hfs]
    rw [if_pos ⟨hzone, hfwd⟩, hresp]
  · unfold clear_aa
    split
    · simp [List.length_set]
    · rfl
  · intro i hi
    unfold clear_aa
    split
    · exact List.get?_set_ne _ _ (Ne.symm hi)
    · rfl

/-- C1 witness instance of the amended theorem. -/
theorem c1_witness :
    utils_extract_query_type c1q = some (some 1) ∧
    main_generate_dns_response c1env c1q (sb "a") c1cfg = some (Except.ok (clear_aa c1up)) :=
  ⟨rfl, (c1_amended_theorem c1env c1q (sb "a") c1up c1cfg (some 1) rfl (by decide) (by decide)
    rfl rfl rfl (by decide) (by decide) rfl).1⟩

/-- C9: a failed backend interaction yields the empty record list, and the
resolver, observing the empty list on an A query with a cache miss,
proceeds to authoritative NXDOMAIN or forwarding. -/
theorem c9_theorem (o : DbOutcome) (env : ResolveEnv) (q domain : Str) (cfg : ServerConfig)
    (ho : dbFailed o = true)
    (hrec : env.records = db_lookup_records o)
    (hqt : utils_extract_query_type q = some (some 1))
    (hcache : cache_get env.cache domain env.now = none) :
    db_lookup_records o = [] ∧
    dns_generate_dns_response env q domain cfg =
      (if cfg.authoritative ∧ (find_closest_parent_zone domain env.zones).isSome then
         okOrProtocol (dns_build_nxdomain_response q true env.cfgEnv env.zones)
       else
         match env.fwdUdp with
         | some response => some (Except.ok response)
         | none =>
           match env.fwdTcp with
           | some response => some (Except.ok response)
           | none => some (Except.error DnsError.protocol)) := by
  have hempty : db_lookup_records o = [] := by
    cases o with
    | connErr => rfl
    | prepareErr => rfl
    | queryErr => rfl
    | rows rs => simp [dbFailed] at ho
  refine ⟨hempty, ?_⟩
  unfold dns_generate_dns_response
  rw [hqt, hrec, hempty]
  simp only [hcache]
  rfl

/-- C9 witness instance. -/
theorem c9_witness :
    dbFailed DbOutcome.connErr = true ∧
    db_lookup_records DbOutcome.connErr = [] ∧
    dns_generate_dns_response c9env c9q (sb "a") c9cfg = some (Except.ok c9up) :=
  ⟨rfl, (c9_theorem DbOutcome.connErr c9env c9q (sb "a") c9cfg rfl rfl rfl rfl).1,
    (c9_theorem DbOutcome.connErr c9env c9q (sb "a") c9cfg rfl rfl rfl rfl).2⟩

/-- C10: when the QTYPE bytes cannot be extracted, the resolver proceeds
exactly as for QTYPE 1: it probes the cache for the domain and then the
store's A records, before the NXDOMAIN/forward tail. -/
theorem c10_theorem (env : ResolveEnv) (q domain : Str) (cfg : ServerConfig)
    (hlen : 12 ≤ q.length)
    (hqt : utils_extract_query_type q = some none) :
    dns_generate_dns_response env q domain cfg =
      (match cache_get env.cache domain env.now with
       | some (ip, ttl) => dns_build_dns_response q ip ttl cfg
       | none =>
         match env.records.find? (fun r => r.2.2 == sb "A") with
         | some (value, ttl, _) => dns_build_dns_response q value ttl cfg
         | none =>
           if cfg.authoritative ∧ (find_closest_parent_zone domain env.zones).isSome then
             okOrProtocol (dns_build_nxdomain_response q true env.cfgEnv env.zones)
           else
             match env.fwdUdp with
             | some response => some (Except.ok response)
             | none =>
               match env.fwdTcp with
               | some response => some (Except.ok response)
               | none => some (Except.error DnsError.protocol)) := by
  unfold dns_generate_dns_response
  rw [hqt]
  cases hc : cache_get env.cache domain env.now with
  | some pr =>
    obtain ⟨ip, ttl⟩ := pr
    simp [hc]
  | none =>
    have hreq : requestedTypeStr 1 = sb "A" := rfl
    cases hf : env.records.find? (fun r => r.2.2 == sb "A") with
    | some rec =>
      obtain ⟨value, ttl, rt⟩ := rec
      simp [hc, hreq, hf, show (sb "A" = sb "SOA") = False by simp [sb],
        show (sb "A" = sb "NS") = False by simp [sb],
        show (sb "A" = sb "MX") = False by simp [sb],
        show (sb "A" = sb "TXT") = False by simp [sb],
        show (sb "A" = sb "CNAME") = False by simp [sb],
        show (sb "A" = sb "PTR") = False by simp [sb]]
    | none =>
      simp [hc, hreq, hf]

/-- C10 witness instance: a 13-byte query, a cache hit for the domain. -/
theorem c10_witness :
    12 ≤ c10q.length ∧
    utils_extract_query_type c10q = some none ∧
    dns_generate_dns_response c10env c10q (sb "a") c10cfg =
      dns_build_dns_response c10q (sb "10.1.1.1") 60 c10cfg :=
  ⟨by decide, rfl, by
    have h := c10_theorem c10env c10q (sb "a") c10cfg (by decide) rfl
    rw [h]
    rfl⟩

/-- C2: on an authoritative NXDOMAIN for `missing.example.com` with one
covering zone (two NS records, one SOA), the library builder emits three
authority RRs (the SOA and both NS records) while the header says
ANCOUNT 0 and NSCOUNT 1. -/
theorem c2_bug_eval :
    dns_build_nxdomain_response c2q true (some c2cfg) c2zones =
      some (some (c2hdr ++ c2question ++ c2soaRR
        ++ c2nsRR "ns1.example.com." ++ c2nsRR "ns2.example.com.")) ∧
    (c2hdr.get? 6, c2hdr.get? 7) = (some 0, some 0) ∧
    (c2hdr.get? 8, c2hdr.get? 9) = (some 0, some 1) :=
  ⟨rfl, rfl, rfl⟩

/-- C3: for a request carrying an OPT RR (payload 1232, DO set), the
library A-answer builder does append an OPT RR echoing the payload size,
but the header's ARCOUNT bytes (offsets 10 and 11) stay 0, and the
appended OPT's flags are zero because the scanner reads the version
octet instead of the flags octet. -/
theorem c3_bug_eval :
    utils_has_opt_record c3q = true ∧
    dns_build_dns_response c3q (sb "10.0.0.1") 60 c3cfg =
      some (Except.ok (c3hdr ++ c3question ++ c3answer ++ c3opt)) ∧
    (c3hdr.get? 10, c3hdr.get? 11) = (some 0, some 0) :=
  ⟨rfl, rfl, rfl⟩

/-- C4: for an authoritative A answer, the library builder sets the
NSCOUNT bytes (offsets 8 and 9) to 2 but the response ends right after
the answer RR — no authority RRs are present; the binary builder emits
the two configured NS records as claimed. -/
theorem c4_bug_eval :
    dns_build_dns_response c4q (sb "10.0.0.1") 60 c4cfg =
      some (Except.ok (c4hdr ++ c4question ++ c4answer)) ∧
    (c4hdr.get? 8, c4hdr.get? 9) = (some 0, some 2) ∧
    main_build_dns_response c4q (sb "10.0.0.1") 60 c4cfg =
      some (Except.ok (c4hdr ++ c4question ++ c4answer
        ++ c4nsRR "ns1.example.com." ++ c4nsRR "ns2.example.com.")) :=
  ⟨rfl, rfl, rfl⟩

/-- C7 witness instance: the library parsers return cleanly on a concrete
truncated packet. -/
theorem c7_witness :
    utils_extract_domain (List.replicate 13 7) ≠ none ∧
    utils_extract_query_type (List.replicate 13 7) ≠ none :=
  ⟨c7_parsing_safety.1 (List.replicate 13 7), c7_parsing_safety.2.1 (List.replicate 13 7)⟩
